import Mathlib

/-!
Verification development for the `code-insights-rs` crate: a validated data
model for Bitbucket Code Insights reports and annotations, with builder
construction and JSON serialization.

The Rust sources (`src/error.rs`, `src/validation.rs`, `src/report.rs`,
`src/annotation.rs`) are embedded shallowly:

* Rust `String` is Lean `String`; Rust `String::len` (the UTF-8 byte count)
  is `String.utf8ByteSize`, while the character count is `String.length`.
* Machine integers (`u8`, `u32`, `u64`) are `Nat`; the range each Rust type
  imposes is captured by explicit well-formedness predicates where needed.
* `serde_json::Number` is modelled on its integer fragment as `Int`.
* Fallible Rust functions returning `Result<T, Error>` become
  `Except Error T`.
* The JSON documents produced by serde are modelled by an explicit `Json`
  tree whose objects are ordered key/value lists (serde emits struct fields
  in declaration order), together with a compact text renderer mirroring
  `serde_json::to_string`.
-/

set_option maxRecDepth 8192

namespace CodeInsights

/-- Maximum length of a report title (`TITLE_LIMIT`, report.rs). -/
def TITLE_LIMIT : Nat := 450

/-- Maximum length of a report's details (`DETAILS_LIMIT`, report.rs). -/
def DETAILS_LIMIT : Nat := 2000

/-- Maximum number of data fields (`DATA_LIMIT`, report.rs). -/
def DATA_LIMIT : Nat := 6

/-- Maximum length of a reporter (`REPORTER_LIMIT`, report.rs). -/
def REPORTER_LIMIT : Nat := 450

/-- Maximum length of an annotation message (`MESSAGE_LIMIT`, annotation.rs). -/
def MESSAGE_LIMIT : Nat := 2000

/-- Maximum length of an annotation's external id (`EXTERNAL_ID_LIMIT`, annotation.rs). -/
def EXTERNAL_ID_LIMIT : Nat := 450

/-- The error taxonomy of error.rs. `SerdeError` wraps an opaque
`serde_json::Error` payload that no claim inspects, so it is modelled as a
bare constructor. -/
inductive Error where
  | FieldTooLong (name : String) (len : Nat) (limit : Nat)
  | SerdeError
  deriving DecidableEq, Repr

/-- True exactly on the `FieldTooLong` variant of error.rs's `Error`. -/
def Error.isFieldTooLong : Error → Bool
  | .FieldTooLong _ _ _ => true
  | .SerdeError => false

/-- Rust `String::len`: the UTF-8 byte length of the string. -/
def strLen (s : String) : Nat := s.utf8ByteSize

/-- The `validate_field!` macro of validation.rs, after the field's measured
length has been taken: error with `FieldTooLong` when the length exceeds the
limit, succeed silently otherwise. -/
def validate_field (name : String) (len : Nat) (limit : Nat) : Except Error Unit :=
  if len > limit then
    Except.error (Error.FieldTooLong name len limit)
  else
    Except.ok ()

/-- The `validate_optional_field!` macro of validation.rs: absent fields are
always valid, present ones get the `validate_field!` check. -/
def validate_optional_field (name : String) (len? : Option Nat) (limit : Nat) :
    Except Error Unit :=
  match len? with
  | none => Except.ok ()
  | some len => validate_field name len limit

/-- `ReportResult` (report.rs): passed or failed state of a report. -/
inductive ReportResult where
  | Pass
  | Fail
  deriving DecidableEq, Repr

/-- `Parameter` (report.rs): the tagged value of a data field. `Date` and
`Duration` carry a `u64`, `Percentage` a `u8`; `Number` is the integer
fragment of `serde_json::Number`. -/
inductive Parameter where
  | Boolean (b : Bool)
  | Date (v : Nat)
  | Duration (v : Nat)
  | Link (linktext : String) (href : String)
  | Number (n : Int)
  | Percentage (v : Nat)
  | Text (s : String)
  deriving DecidableEq, Repr

/-- `Data` (report.rs): a titled data field whose `parameter` is serialized
flattened into the same JSON object. -/
structure Data where
  title : String
  parameter : Parameter
  deriving DecidableEq, Repr

/-- `ReportType` (report.rs). -/
inductive ReportType where
  | Security
  | Coverage
  | Test
  | Bug
  deriving DecidableEq, Repr

/-- `Report` (report.rs): the immutable report value. -/
structure Report where
  title : String
  details : Option String
  result : Option ReportResult
  data : Option (List Data)
  reporter : Option String
  link : Option String
  logo_url : Option String
  report_type : Option ReportType
  deriving DecidableEq, Repr

/-- `Report::validate_fields` (report.rs lines 129-145): title, details and
reporter length checks through the validation macros, then the inline data
cardinality check, with early return on the first failure. -/
def Report.validate_fields (r : Report) : Except Error Unit := do
  validate_field "title" (strLen r.title) TITLE_LIMIT
  validate_optional_field "details" (r.details.map strLen) DETAILS_LIMIT
  validate_optional_field "reporter" (r.reporter.map strLen) REPORTER_LIMIT
  match r.data with
  | some data =>
      if data.length > DATA_LIMIT then
        Except.error (Error.FieldTooLong "data" data.length DATA_LIMIT)
      else
        pure ()
  | none => pure ()

/-- `ReportBuilder` (report.rs): the mutable accumulator for a `Report`. -/
structure ReportBuilder where
  title : String
  details : Option String
  result : Option ReportResult
  data : Option (List Data)
  reporter : Option String
  link : Option String
  logo_url : Option String
  report_type : Option ReportType
  deriving DecidableEq, Repr

/-- `ReportBuilder::new` (report.rs): all optional fields start absent. -/
def ReportBuilder.new (title : String) : ReportBuilder :=
  { title := title
    details := none
    result := none
    data := none
    reporter := none
    link := none
    logo_url := none
    report_type := none }

/-- `ReportBuilder::details` setter (the Rust setter shares the field's name;
Lean needs a distinct one). -/
def ReportBuilder.set_details (b : ReportBuilder) (details : String) : ReportBuilder :=
  { b with details := some details }

/-- `ReportBuilder::result` setter. -/
def ReportBuilder.set_result (b : ReportBuilder) (result : ReportResult) : ReportBuilder :=
  { b with result := some result }

/-- `ReportBuilder::data` setter. -/
def ReportBuilder.set_data (b : ReportBuilder) (data : List Data) : ReportBuilder :=
  { b with data := some data }

/-- `ReportBuilder::reporter` setter. -/
def ReportBuilder.set_reporter (b : ReportBuilder) (reporter : String) : ReportBuilder :=
  { b with reporter := some reporter }

/-- `ReportBuilder::link` setter. -/
def ReportBuilder.set_link (b : ReportBuilder) (link : String) : ReportBuilder :=
  { b with link := some link }

/-- `ReportBuilder::logo_url` setter. -/
def ReportBuilder.set_logo_url (b : ReportBuilder) (logo_url : String) : ReportBuilder :=
  { b with logo_url := some logo_url }

/-- `ReportBuilder::report_type` setter. -/
def ReportBuilder.set_report_type (b : ReportBuilder) (report_type : ReportType) :
    ReportBuilder :=
  { b with report_type := some report_type }

/-- `ReportBuilder::validate_fields` (report.rs lines 297-313): identical in
content to `Report::validate_fields`, duplicated in the source. -/
def ReportBuilder.validate_fields (b : ReportBuilder) : Except Error Unit := do
  validate_field "title" (strLen b.title) TITLE_LIMIT
  validate_optional_field "details" (b.details.map strLen) DETAILS_LIMIT
  validate_optional_field "reporter" (b.reporter.map strLen) REPORTER_LIMIT
  match b.data with
  | some data =>
      if data.length > DATA_LIMIT then
        Except.error (Error.FieldTooLong "data" data.length DATA_LIMIT)
      else
        pure ()
  | none => pure ()

/-- `ReportBuilder::build` (report.rs lines 271-294): validate, then move the
accumulated fields into the immutable `Report`. -/
def ReportBuilder.build (b : ReportBuilder) : Except Error Report := do
  b.validate_fields
  pure
    { title := b.title
      details := b.details
      result := b.result
      data := b.data
      reporter := b.reporter
      link := b.link
      logo_url := b.logo_url
      report_type := b.report_type }

/-- `Severity` (annotation.rs). -/
inductive Severity where
  | Low
  | Medium
  | High
  deriving DecidableEq, Repr

/-- `Type` (annotation.rs); named `AnnotationType` here since `Type` is a
Lean keyword. -/
inductive AnnotationType where
  | Vulnerability
  | CodeSmell
  | Bug
  deriving DecidableEq, Repr

/-- `Annotation` (annotation.rs): the immutable annotation value. `line` is a
`u32` in the source. -/
structure Annotation where
  message : String
  severity : Severity
  annotation_type : Option AnnotationType
  path : Option String
  line : Option Nat
  link : Option String
  external_id : Option String
  deriving DecidableEq, Repr

/-- `Annotation::validate_fields` (annotation.rs lines 102-106): message
length, then external id length. -/
def Annotation.validate_fields (a : Annotation) : Except Error Unit := do
  validate_field "message" (strLen a.message) MESSAGE_LIMIT
  validate_optional_field "external_id" (a.external_id.map strLen) EXTERNAL_ID_LIMIT

/-- `AnnotationBuilder` (annotation.rs). -/
structure AnnotationBuilder where
  message : String
  severity : Severity
  annotation_type : Option AnnotationType
  path : Option String
  line : Option Nat
  link : Option String
  external_id : Option String
  deriving DecidableEq, Repr

/-- `AnnotationBuilder::new` (annotation.rs): message and severity required,
everything else absent. -/
def AnnotationBuilder.new (message : String) (severity : Severity) : AnnotationBuilder :=
  { message := message
    severity := severity
    annotation_type := none
    path := none
    line := none
    link := none
    external_id := none }

/-- `AnnotationBuilder::annotation_type` setter. -/
def AnnotationBuilder.set_annotation_type (b : AnnotationBuilder)
    (annotation_type : AnnotationType) : AnnotationBuilder :=
  { b with annotation_type := some annotation_type }

/-- `AnnotationBuilder::path` setter. -/
def AnnotationBuilder.set_path (b : AnnotationBuilder) (path : String) : AnnotationBuilder :=
  { b with path := some path }

/-- `AnnotationBuilder::line` setter. -/
def AnnotationBuilder.set_line (b : AnnotationBuilder) (line : Nat) : AnnotationBuilder :=
  { b with line := some line }

/-- `AnnotationBuilder::link` setter. -/
def AnnotationBuilder.set_link (b : AnnotationBuilder) (link : String) : AnnotationBuilder :=
  { b with link := some link }

/-- `AnnotationBuilder::external_id` setter. -/
def AnnotationBuilder.set_external_id (b : AnnotationBuilder) (external_id : String) :
    AnnotationBuilder :=
  { b with external_id := some external_id }

/-- `AnnotationBuilder::validate_fields` (annotation.rs lines 230-234). -/
def AnnotationBuilder.validate_fields (b : AnnotationBuilder) : Except Error Unit := do
  validate_field "message" (strLen b.message) MESSAGE_LIMIT
  validate_optional_field "external_id" (b.external_id.map strLen) EXTERNAL_ID_LIMIT

/-- `AnnotationBuilder::build` (annotation.rs lines 205-227). -/
def AnnotationBuilder.build (b : AnnotationBuilder) : Except Error Annotation := do
  b.validate_fields
  pure
    { message := b.message
      severity := b.severity
      annotation_type := b.annotation_type
      path := b.path
      line := b.line
      link := b.link
      external_id := b.external_id }

/-- JSON values as produced by serde: objects keep their key/value pairs in
emission order (serde emits struct fields in declaration order). Numbers are
restricted to the integer fragment, which covers every number this crate can
emit (`u8`, `u32`, `u64` and integer `serde_json::Number` payloads). -/
inductive Json where
  | null
  | bool (b : Bool)
  | num (n : Int)
  | str (s : String)
  | arr (elems : List Json)
  | obj (fields : List (String × Json))

/-- Serde encoding of `ReportResult` under `rename_all = "UPPERCASE"`. -/
def encodeReportResult : ReportResult → Json
  | .Pass => .str "PASS"
  | .Fail => .str "FAIL"

/-- Serde encoding of `ReportType` under `rename_all = "UPPERCASE"`. -/
def encodeReportType : ReportType → Json
  | .Security => .str "SECURITY"
  | .Coverage => .str "COVERAGE"
  | .Test => .str "TEST"
  | .Bug => .str "BUG"

/-- Serde encoding of `Severity` under `rename_all = "UPPERCASE"`. -/
def encodeSeverity : Severity → Json
  | .Low => .str "LOW"
  | .Medium => .str "MEDIUM"
  | .High => .str "HIGH"

/-- Serde encoding of annotation.rs's `Type` under
`rename_all = "SCREAMING_SNAKE_CASE"`. -/
def encodeAnnotationType : AnnotationType → Json
  | .Vulnerability => .str "VULNERABILITY"
  | .CodeSmell => .str "CODE_SMELL"
  | .Bug => .str "BUG"

/-- Serde encoding of `Parameter` under `tag = "type"`, `content = "value"`,
`rename_all = "UPPERCASE"`: the sibling `type`/`value` pairs of the object a
`Parameter` serializes into. -/
def encodeParameterFields : Parameter → List (String × Json)
  | .Boolean b => [("type", .str "BOOLEAN"), ("value", .bool b)]
  | .Date v => [("type", .str "DATE"), ("value", .num v)]
  | .Duration v => [("type", .str "DURATION"), ("value", .num v)]
  | .Link linktext href =>
      [("type", .str "LINK"),
       ("value", .obj [("linktext", .str linktext), ("href", .str href)])]
  | .Number n => [("type", .str "NUMBER"), ("value", .num n)]
  | .Percentage v => [("type", .str "PERCENTAGE"), ("value", .num v)]
  | .Text s => [("type", .str "TEXT"), ("value", .str s)]

/-- Serde encoding of a standalone `Parameter` value. -/
def encodeParameter (p : Parameter) : Json :=
  .obj (encodeParameterFields p)

/-- Serde encoding of `Data`: its own `title` field followed by the
`#[serde(flatten)]`ed parameter's `type`/`value` fields. -/
def encodeData (d : Data) : Json :=
  .obj (("title", .str d.title) :: encodeParameterFields d.parameter)

/-- An optional struct field under `skip_serializing_if = "Option::is_none"`:
absent fields contribute nothing to the object, present ones exactly one
key/value pair. -/
def optField (name : String) (enc : α → Json) : Option α → List (String × Json)
  | none => []
  | some v => [(name, enc v)]

/-- Serde encoding of `Report` under `rename_all = "camelCase"`: the ordered
field list of the object, optional fields omitted when absent. -/
def encodeReportObj (r : Report) : List (String × Json) :=
  ("title", .str r.title) ::
    (optField "details" Json.str r.details ++
     optField "result" encodeReportResult r.result ++
     optField "data" (fun ds => Json.arr (ds.map encodeData)) r.data ++
     optField "reporter" Json.str r.reporter ++
     optField "link" Json.str r.link ++
     optField "logoUrl" Json.str r.logo_url ++
     optField "reportType" encodeReportType r.report_type)

/-- `serde_json::to_value` on a `Report`. -/
def encodeReport (r : Report) : Json :=
  .obj (encodeReportObj r)

/-- Serde encoding of annotation.rs's `Annotation` under
`rename_all = "camelCase"`, with `annotation_type` renamed to `type`. -/
def encodeAnnotationObj (a : Annotation) : List (String × Json) :=
  ("message", .str a.message) ::
    ("severity", encodeSeverity a.severity) ::
      (optField "type" encodeAnnotationType a.annotation_type ++
       optField "path" Json.str a.path ++
       optField "line" (fun n : Nat => Json.num (n : Int)) a.line ++
       optField "link" Json.str a.link ++
       optField "externalId" Json.str a.external_id)

/-- `serde_json::to_value` on an `Annotation`. -/
def encodeAnnotationValue (a : Annotation) : Json :=
  .obj (encodeAnnotationObj a)

/-- A single hex digit as rendered by serde_json's escape table. -/
def hexDigit (n : Nat) : String :=
  String.singleton (if n < 10 then Char.ofNat (48 + n) else Char.ofNat (87 + n))

/-- serde_json's string escaping: quote, backslash, and the control range,
with short escapes for the usual control characters. -/
def escapeChar (c : Char) : String :=
  if c = Char.ofNat 34 then "\\\""
  else if c = Char.ofNat 92 then "\\\\"
  else if c.toNat < 32 then
    match c.toNat with
    | 8 => "\\b"
    | 9 => "\\t"
    | 10 => "\\n"
    | 12 => "\\f"
    | 13 => "\\r"
    | n => "\\u00" ++ hexDigit (n / 16) ++ hexDigit (n % 16)
  else String.singleton c

/-- A JSON string literal as serde_json prints it. -/
def renderString (s : String) : String :=
  "\"" ++ String.join (s.data.map escapeChar) ++ "\""

/-- Compact JSON printing, mirroring `serde_json::to_string`, by structural
recursion on a depth budget. Every document this crate serializes has depth
at most four (report object, data array, data object, link value object), so
the budget of eight is never exhausted on reachable values. -/
def renderFuel : Nat → Json → String
  | _, .null => "null"
  | _, .bool true => "true"
  | _, .bool false => "false"
  | _, .num n => toString n
  | _, .str s => renderString s
  | 0, .arr _ => ""
  | 0, .obj _ => ""
  | Nat.succ k, .arr xs =>
      "[" ++ String.intercalate "," (xs.map (renderFuel k)) ++ "]"
  | Nat.succ k, .obj fs =>
      "\x7b" ++
        String.intercalate ","
          (fs.map (fun kv => renderString kv.1 ++ ":" ++ renderFuel k kv.2)) ++
      "\x7d"

/-- Compact JSON printing of the documents this crate emits. -/
def Json.render (j : Json) : String :=
  renderFuel 8 j

/-- `TryFrom<Report> for Value` (report.rs lines 157-164): re-validate, then
encode. `serde_json::to_value` cannot fail on these types, so the success
branch is total. -/
def Report.try_into_value (r : Report) : Except Error Json := do
  r.validate_fields
  pure (encodeReport r)

/-- `TryFrom<Report> for String` (report.rs lines 148-155): re-validate, then
print. -/
def Report.try_into_string (r : Report) : Except Error String := do
  r.validate_fields
  pure (encodeReport r).render

/-- `TryFrom<Annotation> for Value` (annotation.rs lines 118-125). -/
def Annotation.try_into_value (a : Annotation) : Except Error Json := do
  a.validate_fields
  pure (encodeAnnotationValue a)

/-- `TryFrom<Annotation> for String` (annotation.rs lines 109-116). -/
def Annotation.try_into_string (a : Annotation) : Except Error String := do
  a.validate_fields
  pure (encodeAnnotationValue a).render

/-- Serde decoding of a JSON string. -/
def asStr : Json → Option String
  | .str s => some s
  | _ => none

/-- Serde decoding of an unsigned machine integer with exclusive upper
bound `bound` (serde rejects negative or out-of-range numbers). -/
def decodeU (bound : Nat) : Json → Option Nat
  | .num n => if 0 ≤ n ∧ n < (bound : Int) then some n.toNat else none
  | _ => none

/-- Serde decoding of `ReportResult`. -/
def decodeReportResult : Json → Option ReportResult
  | .str "PASS" => some .Pass
  | .str "FAIL" => some .Fail
  | _ => none

/-- Serde decoding of `ReportType`. -/
def decodeReportType : Json → Option ReportType
  | .str "SECURITY" => some .Security
  | .str "COVERAGE" => some .Coverage
  | .str "TEST" => some .Test
  | .str "BUG" => some .Bug
  | _ => none

/-- Serde decoding of `Severity`. -/
def decodeSeverity : Json → Option Severity
  | .str "LOW" => some .Low
  | .str "MEDIUM" => some .Medium
  | .str "HIGH" => some .High
  | _ => none

/-- Serde decoding of annotation.rs's `Type`. -/
def decodeAnnotationType : Json → Option AnnotationType
  | .str "VULNERABILITY" => some .Vulnerability
  | .str "CODE_SMELL" => some .CodeSmell
  | .str "BUG" => some .Bug
  | _ => none

/-- Serde decoding of a `Parameter` from the `type`/`value` members of the
object it was flattened into. -/
def decodeParameterFields (fs : List (String × Json)) : Option Parameter :=
  match List.lookup "type" fs, List.lookup "value" fs with
  | some (.str "BOOLEAN"), some (.bool b) => some (.Boolean b)
  | some (.str "DATE"), some v => (decodeU (2 ^ 64) v).map Parameter.Date
  | some (.str "DURATION"), some v => (decodeU (2 ^ 64) v).map Parameter.Duration
  | some (.str "LINK"), some (.obj vfs) => do
      let linktext ← (List.lookup "linktext" vfs).bind asStr
      let href ← (List.lookup "href" vfs).bind asStr
      pure (Parameter.Link linktext href)
  | some (.str "NUMBER"), some (.num n) => some (.Number n)
  | some (.str "PERCENTAGE"), some v => (decodeU (2 ^ 8) v).map Parameter.Percentage
  | some (.str "TEXT"), some (.str s) => some (.Text s)
  | _, _ => none

/-- Serde decoding of a `Data` object: the `title` member plus the flattened
parameter members. -/
def decodeData : Json → Option Data
  | .obj fs => do
      let title ← (List.lookup "title" fs).bind asStr
      let parameter ← decodeParameterFields fs
      pure { title := title, parameter := parameter }
  | _ => none

/-- Serde decoding of the `data` array. -/
def decodeDataArr : Json → Option (List Data)
  | .arr xs => xs.mapM decodeData
  | _ => none

/-- Serde decoding of an optional struct field: an absent key is `none`, a
present key must decode. -/
def decodeOptField (fs : List (String × Json)) (k : String) (dec : Json → Option α) :
    Option (Option α) :=
  match List.lookup k fs with
  | none => some none
  | some j => (dec j).map some

/-- Serde decoding of a `Report` from a JSON value. -/
def decodeReport (j : Json) : Option Report :=
  match j with
  | .obj fs => do
      let title ← (List.lookup "title" fs).bind asStr
      let details ← decodeOptField fs "details" asStr
      let result ← decodeOptField fs "result" decodeReportResult
      let data ← decodeOptField fs "data" decodeDataArr
      let reporter ← decodeOptField fs "reporter" asStr
      let link ← decodeOptField fs "link" asStr
      let logo_url ← decodeOptField fs "logoUrl" asStr
      let report_type ← decodeOptField fs "reportType" decodeReportType
      pure
        { title := title
          details := details
          result := result
          data := data
          reporter := reporter
          link := link
          logo_url := logo_url
          report_type := report_type }
  | _ => none

/-- Serde decoding of an `Annotation` from a JSON value. -/
def decodeAnnotationVal (j : Json) : Option Annotation :=
  match j with
  | .obj fs => do
      let message ← (List.lookup "message" fs).bind asStr
      let severity ← (List.lookup "severity" fs).bind decodeSeverity
      let annotation_type ← decodeOptField fs "type" decodeAnnotationType
      let path ← decodeOptField fs "path" asStr
      let line ← decodeOptField fs "line" (decodeU (2 ^ 32))
      let link ← decodeOptField fs "link" asStr
      let external_id ← decodeOptField fs "externalId" asStr
      pure
        { message := message
          severity := severity
          annotation_type := annotation_type
          path := path
          line := line
          link := link
          external_id := external_id }
  | _ => none

/-- The numeric ranges the Rust types of a `Parameter` guarantee: `u64` for
`Date` and `Duration`, `u8` for `Percentage`, `u64`/`i64` for the integer
fragment of `serde_json::Number`. Automatic in Rust, explicit over `Nat`. -/
def Parameter.rangesOk : Parameter → Bool
  | .Date v => v < 2 ^ 64
  | .Duration v => v < 2 ^ 64
  | .Percentage v => v < 2 ^ 8
  | .Number n => decide (-(2 ^ 63) ≤ n ∧ n < 2 ^ 64)
  | _ => true

/-- Range well-formedness of a `Data` field. -/
def Data.rangesOk (d : Data) : Bool :=
  d.parameter.rangesOk

/-- Range well-formedness of a `Report`: every data field in range. -/
def Report.rangesOk (r : Report) : Bool :=
  match r.data with
  | none => true
  | some ds => ds.all Data.rangesOk

/-- Range well-formedness of an `Annotation`: `line` is a `u32`. -/
def Annotation.rangesOk (a : Annotation) : Bool :=
  match a.line with
  | none => true
  | some n => n < 2 ^ 32

/-- Bind on `Except` steps past a success. -/
@[simp]
theorem exbind_ok {ε α β : Type} (a : α) (f : α → Except ε β) :
    (Except.ok a >>= f) = f a := rfl

/-- Bind on `Except` short-circuits on an error, giving the early-return
behaviour of the `?` operator and the validation macros. -/
@[simp]
theorem exbind_error {ε α β : Type} (e : ε) (f : α → Except ε β) :
    ((Except.error e : Except ε α) >>= f) = Except.error e := rfl

/-- A length within its limit passes `validate_field!`. -/
theorem validate_field_le (name : String) {len limit : Nat} (h : len ≤ limit) :
    validate_field name len limit = Except.ok () := by
  simp [validate_field, Nat.not_lt.mpr h]

/-- A length beyond its limit fails `validate_field!` with the field's name,
measured length and limit. -/
theorem validate_field_gt (name : String) {len limit : Nat} (h : limit < len) :
    validate_field name len limit = Except.error (Error.FieldTooLong name len limit) := by
  simp [validate_field, h]

/-- An absent or in-limit optional field passes `validate_optional_field!`. -/
theorem validate_optional_field_le (name : String) {len? : Option Nat} {limit : Nat}
    (h : ∀ l ∈ len?, l ≤ limit) :
    validate_optional_field name len? limit = Except.ok () := by
  cases len? with
  | none => rfl
  | some l => exact validate_field_le name (h l rfl)

/-- A present, over-limit optional field fails `validate_optional_field!`. -/
theorem validate_optional_field_gt (name : String) {len limit : Nat} (h : limit < len) :
    validate_optional_field name (some len) limit =
      Except.error (Error.FieldTooLong name len limit) :=
  validate_field_gt name h

/-- The string of `n` copies of the character `c` (Rust `"c".repeat(n)`). -/
def repChar (c : Char) (n : Nat) : String :=
  String.mk (List.replicate n c)

/-- Rust `String::len` of a character-repeat string: `n` copies of `c` take
`n * c.utf8Size` UTF-8 bytes. -/
theorem repChar_utf8 (c : Char) (n : Nat) : strLen (repChar c n) = n * c.utf8Size := by
  induction n with
  | zero => simp [repChar, strLen]; rfl
  | succ k ih =>
    simp only [strLen, repChar, List.replicate_succ, String.utf8ByteSize_mk,
      String.utf8Len_cons] at *
    rw [ih, Nat.succ_mul]

/-- The character count of a character-repeat string is `n`. -/
theorem repChar_length (c : Char) (n : Nat) : (repChar c n).length = n := by
  simp [repChar, String.length]

/-- Pure on `Except` is success. -/
@[simp]
theorem expure_ok {ε α : Type} (a : α) : (pure a : Except ε α) = Except.ok a := rfl

/-- All in-range fields make `ReportBuilder::validate_fields` succeed. -/
theorem reportBuilder_validate_ok {b : ReportBuilder}
    (h1 : strLen b.title ≤ TITLE_LIMIT)
    (h2 : ∀ d ∈ b.details, strLen d ≤ DETAILS_LIMIT)
    (h3 : ∀ s ∈ b.reporter, strLen s ≤ REPORTER_LIMIT)
    (h4 : ∀ ds ∈ b.data, ds.length ≤ DATA_LIMIT) :
    b.validate_fields = Except.ok () := by
  unfold ReportBuilder.validate_fields
  rw [validate_field_le _ h1,
    validate_optional_field_le _ (by
      intro l hl
      cases hdet : b.details with
      | none => rw [hdet] at hl; cases hl
      | some d => rw [hdet] at hl; cases hl; exact h2 d hdet),
    validate_optional_field_le _ (by
      intro l hl
      cases hrep : b.reporter with
      | none => rw [hrep] at hl; cases hl
      | some s => rw [hrep] at hl; cases hl; exact h3 s hrep)]
  simp only [exbind_ok]
  cases hd : b.data with
  | none => rfl
  | some ds => simp [Nat.not_lt.mpr (h4 ds hd)]

/-- An over-limit title is the first check, so it decides the outcome of
`ReportBuilder::validate_fields` whatever the other fields hold. -/
theorem ReportBuilder.validate_title_err {b : ReportBuilder}
    (h : TITLE_LIMIT < strLen b.title) :
    b.validate_fields = Except.error (Error.FieldTooLong "title" (strLen b.title) TITLE_LIMIT) := by
  unfold ReportBuilder.validate_fields
  rw [validate_field_gt _ h]
  simp

/-- With the title in range, an over-limit details field decides the outcome. -/
theorem ReportBuilder.validate_details_err {b : ReportBuilder} {d : String}
    (ht : strLen b.title ≤ TITLE_LIMIT) (hd : b.details = some d)
    (h : DETAILS_LIMIT < strLen d) :
    b.validate_fields = Except.error (Error.FieldTooLong "details" (strLen d) DETAILS_LIMIT) := by
  unfold ReportBuilder.validate_fields
  rw [validate_field_le _ ht, hd]
  simp only [Option.map_some', exbind_ok]
  rw [validate_optional_field_gt _ h]
  simp

/-- With title and details in range, an over-limit reporter decides the
outcome. -/
theorem ReportBuilder.validate_reporter_err {b : ReportBuilder} {s : String}
    (ht : strLen b.title ≤ TITLE_LIMIT)
    (hdet : ∀ d ∈ b.details, strLen d ≤ DETAILS_LIMIT)
    (hr : b.reporter = some s) (h : REPORTER_LIMIT < strLen s) :
    b.validate_fields = Except.error (Error.FieldTooLong "reporter" (strLen s) REPORTER_LIMIT) := by
  unfold ReportBuilder.validate_fields
  rw [validate_field_le _ ht,
    validate_optional_field_le _ (by
      intro l hl
      cases hdet2 : b.details with
      | none => rw [hdet2] at hl; cases hl
      | some d => rw [hdet2] at hl; cases hl; exact hdet d hdet2), hr]
  simp only [Option.map_some', exbind_ok]
  rw [validate_optional_field_gt _ h]
  simp

/-- With the three text fields in range, an over-limit data sequence decides
the outcome. -/
theorem ReportBuilder.validate_data_err {b : ReportBuilder} {ds : List Data}
    (ht : strLen b.title ≤ TITLE_LIMIT)
    (hdet : ∀ d ∈ b.details, strLen d ≤ DETAILS_LIMIT)
    (hrep : ∀ s ∈ b.reporter, strLen s ≤ REPORTER_LIMIT)
    (hd : b.data = some ds) (h : DATA_LIMIT < ds.length) :
    b.validate_fields = Except.error (Error.FieldTooLong "data" ds.length DATA_LIMIT) := by
  unfold ReportBuilder.validate_fields
  rw [validate_field_le _ ht,
    validate_optional_field_le _ (by
      intro l hl
      cases hdet2 : b.details with
      | none => rw [hdet2] at hl; cases hl
      | some d => rw [hdet2] at hl; cases hl; exact hdet d hdet2),
    validate_optional_field_le _ (by
      intro l hl
      cases hrep2 : b.reporter with
      | none => rw [hrep2] at hl; cases hl
      | some s => rw [hrep2] at hl; cases hl; exact hrep s hrep2)]
  simp only [exbind_ok]
  rw [hd]
  simp [h]

/-- `build` fails exactly as `validate_fields` does. -/
theorem reportBuilder_build_err {b : ReportBuilder} {e : Error}
    (h : b.validate_fields = Except.error e) : b.build = Except.error e := by
  unfold ReportBuilder.build
  rw [h]
  simp

/-- `build` succeeds with the moved fields when `validate_fields` succeeds. -/
theorem reportBuilder_build_ok {b : ReportBuilder}
    (h : b.validate_fields = Except.ok ()) :
    b.build = Except.ok
      { title := b.title, details := b.details, result := b.result, data := b.data,
        reporter := b.reporter, link := b.link, logo_url := b.logo_url,
        report_type := b.report_type } := by
  unfold ReportBuilder.build
  rw [h]
  simp

/-- All in-range fields make `AnnotationBuilder::validate_fields` succeed. -/
theorem annotationBuilder_validate_ok {b : AnnotationBuilder}
    (h1 : strLen b.message ≤ MESSAGE_LIMIT)
    (h2 : ∀ x ∈ b.external_id, strLen x ≤ EXTERNAL_ID_LIMIT) :
    b.validate_fields = Except.ok () := by
  unfold AnnotationBuilder.validate_fields
  rw [validate_field_le _ h1,
    validate_optional_field_le _ (by
      intro l hl
      cases hx : b.external_id with
      | none => rw [hx] at hl; cases hl
      | some x => rw [hx] at hl; cases hl; exact h2 x hx)]
  simp

/-- An over-limit message decides the outcome of
`AnnotationBuilder::validate_fields`. -/
theorem AnnotationBuilder.validate_message_err {b : AnnotationBuilder}
    (h : MESSAGE_LIMIT < strLen b.message) :
    b.validate_fields =
      Except.error (Error.FieldTooLong "message" (strLen b.message) MESSAGE_LIMIT) := by
  unfold AnnotationBuilder.validate_fields
  rw [validate_field_gt _ h]
  simp

/-- With the message in range, an over-limit external id decides the
outcome. -/
theorem AnnotationBuilder.validate_external_id_err {b : AnnotationBuilder} {x : String}
    (hm : strLen b.message ≤ MESSAGE_LIMIT) (hx : b.external_id = some x)
    (h : EXTERNAL_ID_LIMIT < strLen x) :
    b.validate_fields =
      Except.error (Error.FieldTooLong "external_id" (strLen x) EXTERNAL_ID_LIMIT) := by
  unfold AnnotationBuilder.validate_fields
  rw [validate_field_le _ hm, hx]
  simp only [Option.map_some', exbind_ok]
  rw [validate_optional_field_gt _ h]

/-- `AnnotationBuilder::build` fails exactly as its validation does. -/
theorem annotationBuilder_build_err {b : AnnotationBuilder} {e : Error}
    (h : b.validate_fields = Except.error e) : b.build = Except.error e := by
  unfold AnnotationBuilder.build
  rw [h]
  simp

/-- `AnnotationBuilder::build` succeeds with the moved fields when its
validation succeeds. -/
theorem annotationBuilder_build_ok {b : AnnotationBuilder}
    (h : b.validate_fields = Except.ok ()) :
    b.build = Except.ok
      { message := b.message, severity := b.severity,
        annotation_type := b.annotation_type, path := b.path, line := b.line,
        link := b.link, external_id := b.external_id } := by
  unfold AnnotationBuilder.build
  rw [h]
  simp

/-- C1: `ReportBuilder::build` and `AnnotationBuilder::build` succeed exactly
when every limit-constrained field is within its limit: any builder whose
limited fields (title, details, reporter, data cardinality; message,
external id) are in range builds successfully whatever its unlimited fields
(result, link, logo url, report type; annotation type, path, line, link)
hold, a limited text field of measured length limit-plus-one fails with
`FieldTooLong` carrying that field's name, the length and the limit, and a
data sequence of seven entries fails with `FieldTooLong "data" 7 6`. Lengths
are the measured lengths `String::len` computes. -/
theorem c1_build_limits :
    (∀ b : ReportBuilder,
      strLen b.title ≤ TITLE_LIMIT →
      (∀ d ∈ b.details, strLen d ≤ DETAILS_LIMIT) →
      (∀ s ∈ b.reporter, strLen s ≤ REPORTER_LIMIT) →
      (∀ ds ∈ b.data, ds.length ≤ DATA_LIMIT) →
      b.build = Except.ok
        { title := b.title, details := b.details, result := b.result, data := b.data,
          reporter := b.reporter, link := b.link, logo_url := b.logo_url,
          report_type := b.report_type }) ∧
    (∀ b : ReportBuilder, strLen b.title = TITLE_LIMIT + 1 →
      b.build = Except.error (Error.FieldTooLong "title" (TITLE_LIMIT + 1) TITLE_LIMIT)) ∧
    (∀ (b : ReportBuilder) (d : String),
      strLen b.title ≤ TITLE_LIMIT → b.details = some d →
      strLen d = DETAILS_LIMIT + 1 →
      b.build = Except.error (Error.FieldTooLong "details" (DETAILS_LIMIT + 1) DETAILS_LIMIT)) ∧
    (∀ (b : ReportBuilder) (s : String),
      strLen b.title ≤ TITLE_LIMIT → (∀ d ∈ b.details, strLen d ≤ DETAILS_LIMIT) →
      b.reporter = some s → strLen s = REPORTER_LIMIT + 1 →
      b.build =
        Except.error (Error.FieldTooLong "reporter" (REPORTER_LIMIT + 1) REPORTER_LIMIT)) ∧
    (∀ (b : ReportBuilder) (ds : List Data),
      strLen b.title ≤ TITLE_LIMIT → (∀ d ∈ b.details, strLen d ≤ DETAILS_LIMIT) →
      (∀ s ∈ b.reporter, strLen s ≤ REPORTER_LIMIT) →
      b.data = some ds → ds.length = DATA_LIMIT + 1 →
      b.build = Except.error (Error.FieldTooLong "data" (DATA_LIMIT + 1) DATA_LIMIT)) ∧
    (∀ b : AnnotationBuilder,
      strLen b.message ≤ MESSAGE_LIMIT →
      (∀ x ∈ b.external_id, strLen x ≤ EXTERNAL_ID_LIMIT) →
      b.build = Except.ok
        { message := b.message, severity := b.severity,
          annotation_type := b.annotation_type, path := b.path, line := b.line,
          link := b.link, external_id := b.external_id }) ∧
    (∀ b : AnnotationBuilder, strLen b.message = MESSAGE_LIMIT + 1 →
      b.build = Except.error (Error.FieldTooLong "message" (MESSAGE_LIMIT + 1) MESSAGE_LIMIT)) ∧
    (∀ (b : AnnotationBuilder) (x : String),
      strLen b.message ≤ MESSAGE_LIMIT → b.external_id = some x →
      strLen x = EXTERNAL_ID_LIMIT + 1 →
      b.build =
        Except.error
          (Error.FieldTooLong "external_id" (EXTERNAL_ID_LIMIT + 1) EXTERNAL_ID_LIMIT)) := by
  refine ⟨?_, ?_, ?_, ?_, ?_, ?_, ?_, ?_⟩
  · intro b h1 h2 h3 h4
    exact reportBuilder_build_ok (reportBuilder_validate_ok h1 h2 h3 h4)
  · intro b h
    have hv := ReportBuilder.validate_title_err (b := b) (by rw [h]; exact Nat.lt_succ_self _)
    rw [h] at hv
    exact reportBuilder_build_err hv
  · intro b d ht hd h
    have hv := ReportBuilder.validate_details_err ht hd (by rw [h]; exact Nat.lt_succ_self _)
    rw [h] at hv
    exact reportBuilder_build_err hv
  · intro b s ht hdet hr h
    have hv :=
      ReportBuilder.validate_reporter_err ht hdet hr (by rw [h]; exact Nat.lt_succ_self _)
    rw [h] at hv
    exact reportBuilder_build_err hv
  · intro b ds ht hdet hrep hd h
    have hv :=
      ReportBuilder.validate_data_err ht hdet hrep hd (by rw [h]; exact Nat.lt_succ_self _)
    rw [h] at hv
    exact reportBuilder_build_err hv
  · intro b h1 h2
    exact annotationBuilder_build_ok (annotationBuilder_validate_ok h1 h2)
  · intro b h
    have hv :=
      AnnotationBuilder.validate_message_err (b := b) (by rw [h]; exact Nat.lt_succ_self _)
    rw [h] at hv
    exact annotationBuilder_build_err hv
  · intro b x hm hx h
    have hv :=
      AnnotationBuilder.validate_external_id_err hm hx (by rw [h]; exact Nat.lt_succ_self _)
    rw [h] at hv
    exact annotationBuilder_build_err hv

/-- Witness for C1 at concrete inputs: a fully-populated builder with every
limited field exactly at its limit builds, and each limit-plus-one input
fails with the documented error. -/
theorem c1_build_limits_witness :
    ({ title := repChar 'X' 450, details := some (repChar 'X' 2000),
       result := some ReportResult.Pass,
       data := some (List.replicate 6 { title := "t", parameter := Parameter.Boolean true }),
       reporter := some (repChar 'X' 450), link := some "https://link.test",
       logo_url := some "https://logo.test",
       report_type := some ReportType.Security } : ReportBuilder).build =
      Except.ok
        { title := repChar 'X' 450, details := some (repChar 'X' 2000),
          result := some ReportResult.Pass,
          data := some (List.replicate 6 { title := "t", parameter := Parameter.Boolean true }),
          reporter := some (repChar 'X' 450), link := some "https://link.test",
          logo_url := some "https://logo.test",
          report_type := some ReportType.Security } ∧
    (ReportBuilder.new (repChar 'X' 451)).build =
      Except.error (Error.FieldTooLong "title" 451 450) ∧
    ((ReportBuilder.new "Title").set_details (repChar 'X' 2001)).build =
      Except.error (Error.FieldTooLong "details" 2001 2000) ∧
    ((ReportBuilder.new "Title").set_reporter (repChar 'X' 451)).build =
      Except.error (Error.FieldTooLong "reporter" 451 450) ∧
    ((ReportBuilder.new "Title").set_data
        (List.replicate 7 { title := "t", parameter := Parameter.Boolean true })).build =
      Except.error (Error.FieldTooLong "data" 7 6) ∧
    ( AnnotationBuilder.new (repChar 'X' 2000) Severity.Low).build =
      Except.ok
        { message := repChar 'X' 2000, severity := Severity.Low, annotation_type := none,
          path := none, line := none, link := none, external_id := none } ∧
    ( AnnotationBuilder.new (repChar 'X' 2001) Severity.Low).build =
      Except.error (Error.FieldTooLong "message" 2001 2000) ∧
    (( AnnotationBuilder.new "Message" Severity.Low).set_external_id (repChar 'X' 451)).build =
      Except.error (Error.FieldTooLong "external_id" 451 450) := by
  refine ⟨?_, ?_, ?_, ?_, ?_, ?_, ?_, ?_⟩
  · exact c1_build_limits.1 _
      (by show strLen (repChar 'X' 450) ≤ TITLE_LIMIT; rw [repChar_utf8]; decide)
      (by intro d hd; cases hd; rw [repChar_utf8]; decide)
      (by intro s hs; cases hs; rw [repChar_utf8]; decide)
      (by intro ds hds; cases hds; simp [DATA_LIMIT])
  · exact c1_build_limits.2.1 _
      (by show strLen (repChar 'X' 451) = TITLE_LIMIT + 1; rw [repChar_utf8]; decide)
  · exact c1_build_limits.2.2.1 _ _ (by decide) rfl
      (by rw [repChar_utf8]; decide)
  · exact c1_build_limits.2.2.2.1 _ _ (by decide) (by intro d hd; cases hd) rfl
      (by rw [repChar_utf8]; decide)
  · exact c1_build_limits.2.2.2.2.1 _ _ (by decide) (by intro d hd; cases hd)
      (by intro s hs; cases hs) rfl (by simp [DATA_LIMIT])
  · exact c1_build_limits.2.2.2.2.2.1 _
      (by show strLen (repChar 'X' 2000) ≤ MESSAGE_LIMIT; rw [repChar_utf8]; decide)
      (by intro x hx; cases hx)
  · exact c1_build_limits.2.2.2.2.2.2.1 _
      (by show strLen (repChar 'X' 2001) = MESSAGE_LIMIT + 1; rw [repChar_utf8]; decide)
  · exact c1_build_limits.2.2.2.2.2.2.2 _ _ (by decide) rfl
      (by rw [repChar_utf8]; decide)

/-- The measured length of a repeat of the one-byte character X is its
repeat count. -/
theorem strLen_repX (n : Nat) : strLen (repChar 'X' n) = n := by
  rw [repChar_utf8]
  have h : 'X'.utf8Size = 1 := by decide
  rw [h, Nat.mul_one]

/-- C2: validation during build runs in a fixed order (title, details,
reporter, data for a report; message, external id for an annotation) and
build returns the first failure: an over-limit title decides the outcome
whatever the later fields hold — in particular when the data cardinality is
also violated — and each later check decides the outcome once the earlier
ones pass. -/
theorem c2_validation_order :
    (∀ b : ReportBuilder, TITLE_LIMIT < strLen b.title →
      b.build = Except.error (Error.FieldTooLong "title" (strLen b.title) TITLE_LIMIT)) ∧
    (∀ (b : ReportBuilder) (d : String),
      strLen b.title ≤ TITLE_LIMIT → b.details = some d → DETAILS_LIMIT < strLen d →
      b.build = Except.error (Error.FieldTooLong "details" (strLen d) DETAILS_LIMIT)) ∧
    (∀ (b : ReportBuilder) (s : String),
      strLen b.title ≤ TITLE_LIMIT → (∀ d ∈ b.details, strLen d ≤ DETAILS_LIMIT) →
      b.reporter = some s → REPORTER_LIMIT < strLen s →
      b.build = Except.error (Error.FieldTooLong "reporter" (strLen s) REPORTER_LIMIT)) ∧
    (∀ (b : ReportBuilder) (ds : List Data),
      strLen b.title ≤ TITLE_LIMIT → (∀ d ∈ b.details, strLen d ≤ DETAILS_LIMIT) →
      (∀ s ∈ b.reporter, strLen s ≤ REPORTER_LIMIT) →
      b.data = some ds → DATA_LIMIT < ds.length →
      b.build = Except.error (Error.FieldTooLong "data" ds.length DATA_LIMIT)) ∧
    (∀ b : AnnotationBuilder, MESSAGE_LIMIT < strLen b.message →
      b.build = Except.error (Error.FieldTooLong "message" (strLen b.message) MESSAGE_LIMIT)) ∧
    (∀ (b : AnnotationBuilder) (x : String),
      strLen b.message ≤ MESSAGE_LIMIT → b.external_id = some x →
      EXTERNAL_ID_LIMIT < strLen x →
      b.build =
        Except.error (Error.FieldTooLong "external_id" (strLen x) EXTERNAL_ID_LIMIT)) := by
  refine ⟨?_, ?_, ?_, ?_, ?_, ?_⟩
  · intro b h
    exact reportBuilder_build_err (ReportBuilder.validate_title_err h)
  · intro b d ht hd h
    exact reportBuilder_build_err (ReportBuilder.validate_details_err ht hd h)
  · intro b s ht hdet hr h
    exact reportBuilder_build_err (ReportBuilder.validate_reporter_err ht hdet hr h)
  · intro b ds ht hdet hrep hd h
    exact reportBuilder_build_err
      (ReportBuilder.validate_data_err ht hdet hrep hd h)
  · intro b h
    exact annotationBuilder_build_err (AnnotationBuilder.validate_message_err h)
  · intro b x hm hx h
    exact annotationBuilder_build_err
      (AnnotationBuilder.validate_external_id_err hm hx h)

/-- Witness for C2: a builder that violates the title limit and the data
cardinality limit at once reports the title violation, and each later check
fires on a concrete builder that passes the earlier ones. -/
theorem c2_validation_order_witness :
    ((ReportBuilder.new (repChar 'X' 451)).set_data
        (List.replicate 7 { title := "t", parameter := Parameter.Boolean true })).build =
      Except.error (Error.FieldTooLong "title" 451 450) ∧
    ((ReportBuilder.new "Title").set_details (repChar 'X' 2345)).build =
      Except.error (Error.FieldTooLong "details" 2345 2000) ∧
    ((ReportBuilder.new "Title").set_reporter (repChar 'X' 500)).build =
      Except.error (Error.FieldTooLong "reporter" 500 450) ∧
    ((ReportBuilder.new "Title").set_data
        (List.replicate 9 { title := "t", parameter := Parameter.Boolean true })).build =
      Except.error (Error.FieldTooLong "data" 9 6) ∧
    ( AnnotationBuilder.new (repChar 'X' 2100) Severity.High).build =
      Except.error (Error.FieldTooLong "message" 2100 2000) ∧
    (( AnnotationBuilder.new "Message" Severity.Low).set_external_id (repChar 'X' 470)).build =
      Except.error (Error.FieldTooLong "external_id" 470 450) := by
  have e1 := c2_validation_order.1
    (((ReportBuilder.new (repChar 'X' 451)).set_data
        (List.replicate 7 { title := "t", parameter := Parameter.Boolean true })))
    (by show TITLE_LIMIT < strLen (repChar 'X' 451); rw [repChar_utf8]; decide)
  have e2 := c2_validation_order.2.1
    ((ReportBuilder.new "Title").set_details (repChar 'X' 2345)) (repChar 'X' 2345)
    (by decide) rfl (by rw [repChar_utf8]; decide)
  have e3 := c2_validation_order.2.2.1
    ((ReportBuilder.new "Title").set_reporter (repChar 'X' 500)) (repChar 'X' 500)
    (by decide) (by intro d hd; cases hd) rfl (by rw [repChar_utf8]; decide)
  have e4 := c2_validation_order.2.2.2.1
    ((ReportBuilder.new "Title").set_data
      (List.replicate 9 { title := "t", parameter := Parameter.Boolean true }))
    (List.replicate 9 { title := "t", parameter := Parameter.Boolean true })
    (by decide) (by intro d hd; cases hd) (by intro s hs; cases hs) rfl
    (by simp [DATA_LIMIT])
  have e5 := c2_validation_order.2.2.2.2.1
    ( AnnotationBuilder.new (repChar 'X' 2100) Severity.High)
    (by show MESSAGE_LIMIT < strLen (repChar 'X' 2100); rw [repChar_utf8]; decide)
  have e6 := c2_validation_order.2.2.2.2.2
    (( AnnotationBuilder.new "Message" Severity.Low).set_external_id (repChar 'X' 470))
    (repChar 'X' 470) (by decide) rfl (by rw [repChar_utf8]; decide)
  simp only [ReportBuilder.new, ReportBuilder.set_data, AnnotationBuilder.new] at e1 e5
  rw [strLen_repX] at e1 e2 e3 e5 e6
  refine ⟨e1, e2, e3, ?_, e5, e6⟩
  simpa using e4

/-- `Report::validate_fields` and `ReportBuilder::validate_fields` have the
same body in the source; validating a report is validating the builder
holding the same fields. -/
theorem report_validate_eq_builder (r : Report) :
    r.validate_fields =
      ( ReportBuilder.mk r.title r.details r.result r.data r.reporter r.link r.logo_url
        r.report_type).validate_fields := rfl

/-- `Annotation::validate_fields` and `AnnotationBuilder::validate_fields`
have the same body in the source. -/
theorem annotation_validate_eq_builder (a : Annotation) :
    a.validate_fields =
      ( AnnotationBuilder.mk a.message a.severity a.annotation_type a.path a.line a.link
        a.external_id).validate_fields := rfl

/-- Every error a validation step can produce is a `FieldTooLong`. -/
def ErrOnlyFTL (x : Except Error Unit) : Prop :=
  ∀ e : Error, x = Except.error e → e.isFieldTooLong = true

/-- `ErrOnlyFTL` is preserved by sequencing. -/
theorem errOnlyFTL_bind {x : Except Error Unit} {f : Unit → Except Error Unit}
    (hx : ErrOnlyFTL x) (hf : ErrOnlyFTL (f ())) : ErrOnlyFTL (x >>= f) := by
  intro e he
  cases x with
  | error e2 =>
    rw [exbind_error] at he
    injection he with h
    exact h ▸ hx e2 rfl
  | ok a =>
    cases a
    rw [exbind_ok] at he
    exact hf e he

/-- `validate_field!` only ever fails with `FieldTooLong`. -/
theorem errOnlyFTL_validate_field (name : String) (len limit : Nat) :
    ErrOnlyFTL (validate_field name len limit) := by
  intro e he
  unfold validate_field at he
  split at he
  · injection he with h
    exact h ▸ rfl
  · simp at he

/-- `validate_optional_field!` only ever fails with `FieldTooLong`. -/
theorem errOnlyFTL_validate_optional_field (name : String) (len? : Option Nat) (limit : Nat) :
    ErrOnlyFTL (validate_optional_field name len? limit) := by
  cases len? with
  | none => intro e he; simp [validate_optional_field] at he
  | some l => exact errOnlyFTL_validate_field name l limit

/-- `Report::validate_fields` only ever fails with `FieldTooLong`. -/
theorem report_validate_err_shape {r : Report} {e : Error}
    (h : r.validate_fields = Except.error e) : e.isFieldTooLong = true := by
  refine (?_ : ErrOnlyFTL r.validate_fields) e h
  unfold Report.validate_fields
  refine errOnlyFTL_bind (errOnlyFTL_validate_field _ _ _) ?_
  refine errOnlyFTL_bind (errOnlyFTL_validate_optional_field _ _ _) ?_
  refine errOnlyFTL_bind (errOnlyFTL_validate_optional_field _ _ _) ?_
  intro e2 he2
  cases hd : r.data with
  | none => rw [hd] at he2; simp at he2
  | some ds =>
    rw [hd] at he2
    split at he2
    · split at he2
      · injection he2 with h2
        exact h2 ▸ rfl
      · simp at he2
    · simp at he2

/-- `ReportBuilder::validate_fields` only ever fails with `FieldTooLong`. -/
theorem reportBuilder_validate_err_shape {b : ReportBuilder} {e : Error}
    (h : b.validate_fields = Except.error e) : e.isFieldTooLong = true := by
  refine (?_ : ErrOnlyFTL b.validate_fields) e h
  unfold ReportBuilder.validate_fields
  refine errOnlyFTL_bind (errOnlyFTL_validate_field _ _ _) ?_
  refine errOnlyFTL_bind (errOnlyFTL_validate_optional_field _ _ _) ?_
  refine errOnlyFTL_bind (errOnlyFTL_validate_optional_field _ _ _) ?_
  intro e2 he2
  cases hd : b.data with
  | none => rw [hd] at he2; simp at he2
  | some ds =>
    rw [hd] at he2
    split at he2
    · split at he2
      · injection he2 with h2
        exact h2 ▸ rfl
      · simp at he2
    · simp at he2

/-- `Annotation::validate_fields` only ever fails with `FieldTooLong`. -/
theorem annotation_validate_err_shape {a : Annotation} {e : Error}
    (h : a.validate_fields = Except.error e) : e.isFieldTooLong = true := by
  refine (?_ : ErrOnlyFTL a.validate_fields) e h
  unfold Annotation.validate_fields
  exact errOnlyFTL_bind (errOnlyFTL_validate_field _ _ _)
    (errOnlyFTL_validate_optional_field _ _ _)

/-- `AnnotationBuilder::validate_fields` only ever fails with
`FieldTooLong`. -/
theorem annotationBuilder_validate_err_shape {b : AnnotationBuilder} {e : Error}
    (h : b.validate_fields = Except.error e) : e.isFieldTooLong = true := by
  refine (?_ : ErrOnlyFTL b.validate_fields) e h
  unfold AnnotationBuilder.validate_fields
  exact errOnlyFTL_bind (errOnlyFTL_validate_field _ _ _)
    (errOnlyFTL_validate_optional_field _ _ _)

/-- A failing `ReportBuilder::build` fails inside validation. -/
theorem reportBuilder_build_err_inv {b : ReportBuilder} {e : Error}
    (h : b.build = Except.error e) : b.validate_fields = Except.error e := by
  unfold ReportBuilder.build at h
  cases hv : b.validate_fields with
  | error e2 =>
    rw [hv, exbind_error] at h
    injection h with h2
    rw [← h2]
  | ok a =>
    cases a
    rw [hv, exbind_ok] at h
    simp at h

/-- A failing `AnnotationBuilder::build` fails inside validation. -/
theorem annotationBuilder_build_err_inv {b : AnnotationBuilder} {e : Error}
    (h : b.build = Except.error e) : b.validate_fields = Except.error e := by
  unfold AnnotationBuilder.build at h
  cases hv : b.validate_fields with
  | error e2 =>
    rw [hv, exbind_error] at h
    injection h with h2
    rw [← h2]
  | ok a =>
    cases a
    rw [hv, exbind_ok] at h
    simp at h

/-- C3: the JSON-text and JSON-value conversions re-run field validation
before encoding: whenever validation rejects a report or annotation value —
however it was constructed — both conversions return that same
`FieldTooLong` error rather than producing JSON, and when validation
accepts, both produce the encoded document. -/
theorem c3_serialization_revalidates :
    (∀ (r : Report) (e : Error), r.validate_fields = Except.error e →
      Report.try_into_value r = Except.error e ∧
      Report.try_into_string r = Except.error e ∧
      e.isFieldTooLong = true) ∧
    (∀ r : Report, r.validate_fields = Except.ok () →
      Report.try_into_value r = Except.ok (encodeReport r) ∧
      Report.try_into_string r = Except.ok (encodeReport r).render) ∧
    (∀ (a : Annotation) (e : Error), a.validate_fields = Except.error e →
      Annotation.try_into_value a = Except.error e ∧
      Annotation.try_into_string a = Except.error e ∧
      e.isFieldTooLong = true) ∧
    (∀ a : Annotation, a.validate_fields = Except.ok () →
      Annotation.try_into_value a = Except.ok (encodeAnnotationValue a) ∧
      Annotation.try_into_string a = Except.ok (encodeAnnotationValue a).render) := by
  refine ⟨?_, ?_, ?_, ?_⟩
  · intro r e h
    refine ⟨?_, ?_, report_validate_err_shape h⟩
    · unfold Report.try_into_value
      rw [h, exbind_error]
    · unfold Report.try_into_string
      rw [h, exbind_error]
  · intro r h
    constructor
    · unfold Report.try_into_value
      rw [h, exbind_ok, expure_ok]
    · unfold Report.try_into_string
      rw [h, exbind_ok, expure_ok]
  · intro a e h
    refine ⟨?_, ?_, annotation_validate_err_shape h⟩
    · unfold Annotation.try_into_value
      rw [h, exbind_error]
    · unfold Annotation.try_into_string
      rw [h, exbind_error]
  · intro a h
    constructor
    · unfold Annotation.try_into_value
      rw [h, exbind_ok, expure_ok]
    · unfold Annotation.try_into_string
      rw [h, exbind_ok, expure_ok]

/-- Witness for C3 at concrete values: an over-limit report value written
directly — as a deserializer could produce it, bypassing the builder — is
rejected by both conversions with `FieldTooLong`, and an in-limit annotation
value is encoded by both. -/
theorem c3_serialization_revalidates_witness :
    Report.try_into_value
        { title := repChar 'X' 451, details := none, result := none, data := none,
          reporter := none, link := none, logo_url := none, report_type := none } =
      Except.error (Error.FieldTooLong "title" 451 450) ∧
    Report.try_into_string
        { title := repChar 'X' 451, details := none, result := none, data := none,
          reporter := none, link := none, logo_url := none, report_type := none } =
      Except.error (Error.FieldTooLong "title" 451 450) ∧
    (Error.FieldTooLong "title" 451 450).isFieldTooLong = true ∧
    Annotation.try_into_value
        { message := "Message", severity := Severity.Low, annotation_type := none,
          path := none, line := none, link := none, external_id := none } =
      Except.ok
        (Json.obj [("message", Json.str "Message"), ("severity", Json.str "LOW")]) := by
  have herr : Report.validate_fields
      { title := repChar 'X' 451, details := none, result := none, data := none,
        reporter := none, link := none, logo_url := none, report_type := none } =
      Except.error (Error.FieldTooLong "title" 451 450) := by
    have h := report_validate_eq_builder
    rw [h]
    have := ReportBuilder.validate_title_err
      (b := { title := repChar 'X' 451, details := none, result := none, data := none,
              reporter := none, link := none, logo_url := none, report_type := none })
      (by show TITLE_LIMIT < strLen (repChar 'X' 451); rw [strLen_repX]; decide)
    rw [strLen_repX] at this
    exact this
  have h1 := c3_serialization_revalidates.1 _ _ herr
  have hok : Annotation.validate_fields
      { message := "Message", severity := Severity.Low, annotation_type := none,
        path := none, line := none, link := none, external_id := none } =
      Except.ok () := by rfl
  have h2 := c3_serialization_revalidates.2.2.2 _ hok
  exact ⟨h1.1, h1.2.1, h1.2.2, h2.1⟩

/-- C9: a failure of `ReportBuilder::build` or `AnnotationBuilder::build` is
always the `FieldTooLong` error kind, never the serde wrapper: build fails
only inside field validation. -/
theorem c9_build_never_serde :
    (∀ (b : ReportBuilder) (e : Error), b.build = Except.error e →
      e.isFieldTooLong = true ∧ e ≠ Error.SerdeError) ∧
    (∀ (b : AnnotationBuilder) (e : Error), b.build = Except.error e →
      e.isFieldTooLong = true ∧ e ≠ Error.SerdeError) := by
  constructor
  · intro b e h
    have hftl := reportBuilder_validate_err_shape (reportBuilder_build_err_inv h)
    refine ⟨hftl, ?_⟩
    intro hs
    rw [hs] at hftl
    simp [Error.isFieldTooLong] at hftl
  · intro b e h
    have hftl := annotationBuilder_validate_err_shape (annotationBuilder_build_err_inv h)
    refine ⟨hftl, ?_⟩
    intro hs
    rw [hs] at hftl
    simp [Error.isFieldTooLong] at hftl

/-- Witness for C9: concrete failing builds on both document families
produce a `FieldTooLong`, not a `SerdeError`. -/
theorem c9_build_never_serde_witness :
    (Error.FieldTooLong "title" 451 450).isFieldTooLong = true ∧
      Error.FieldTooLong "title" 451 450 ≠ Error.SerdeError ∧
    (Error.FieldTooLong "message" 2001 2000).isFieldTooLong = true ∧
      Error.FieldTooLong "message" 2001 2000 ≠ Error.SerdeError := by
  have hr : (ReportBuilder.new (repChar 'X' 451)).build =
      Except.error (Error.FieldTooLong "title" 451 450) := by
    have hv := ReportBuilder.validate_title_err
      (b := ReportBuilder.new (repChar 'X' 451))
      (by show TITLE_LIMIT < strLen (repChar 'X' 451); rw [strLen_repX]; decide)
    simp only [ReportBuilder.new] at hv
    rw [strLen_repX] at hv
    exact reportBuilder_build_err hv
  have ha : ( AnnotationBuilder.new (repChar 'X' 2001) Severity.Low).build =
      Except.error (Error.FieldTooLong "message" 2001 2000) := by
    have hv := AnnotationBuilder.validate_message_err
      (b := AnnotationBuilder.new (repChar 'X' 2001) Severity.Low)
      (by show MESSAGE_LIMIT < strLen (repChar 'X' 2001); rw [strLen_repX]; decide)
    simp only [AnnotationBuilder.new] at hv
    rw [strLen_repX] at hv
    exact annotationBuilder_build_err hv
  have h1 := c9_build_never_serde.1 _ _ hr
  have h2 := c9_build_never_serde.2 _ _ ha
  exact ⟨h1.1, h1.2, h2.1, h2.2⟩

/-- C10: every builder setter is a total function that sets exactly its own
field to `some` of the given value — the record-update equations say the
other accumulated fields are taken unchanged from the receiver — and a
repeated call keeps only the last value supplied. -/
theorem c10_setters_frame :
    (∀ (b : ReportBuilder) (v : String), b.set_details v = { b with details := some v }) ∧
    (∀ (b : ReportBuilder) (v w : String),
      (b.set_details v).set_details w = { b with details := some w }) ∧
    (∀ (b : ReportBuilder) (v : ReportResult), b.set_result v = { b with result := some v }) ∧
    (∀ (b : ReportBuilder) (v w : ReportResult),
      (b.set_result v).set_result w = { b with result := some w }) ∧
    (∀ (b : ReportBuilder) (v : List Data), b.set_data v = { b with data := some v }) ∧
    (∀ (b : ReportBuilder) (v w : List Data),
      (b.set_data v).set_data w = { b with data := some w }) ∧
    (∀ (b : ReportBuilder) (v : String), b.set_reporter v = { b with reporter := some v }) ∧
    (∀ (b : ReportBuilder) (v w : String),
      (b.set_reporter v).set_reporter w = { b with reporter := some w }) ∧
    (∀ (b : ReportBuilder) (v : String), b.set_link v = { b with link := some v }) ∧
    (∀ (b : ReportBuilder) (v w : String),
      (b.set_link v).set_link w = { b with link := some w }) ∧
    (∀ (b : ReportBuilder) (v : String), b.set_logo_url v = { b with logo_url := some v }) ∧
    (∀ (b : ReportBuilder) (v w : String),
      (b.set_logo_url v).set_logo_url w = { b with logo_url := some w }) ∧
    (∀ (b : ReportBuilder) (v : ReportType),
      b.set_report_type v = { b with report_type := some v }) ∧
    (∀ (b : ReportBuilder) (v w : ReportType),
      (b.set_report_type v).set_report_type w = { b with report_type := some w }) ∧
    (∀ (b : AnnotationBuilder) (v : AnnotationType),
      b.set_annotation_type v = { b with annotation_type := some v }) ∧
    (∀ (b : AnnotationBuilder) (v w : AnnotationType),
      (b.set_annotation_type v).set_annotation_type w =
        { b with annotation_type := some w }) ∧
    (∀ (b : AnnotationBuilder) (v : String), b.set_path v = { b with path := some v }) ∧
    (∀ (b : AnnotationBuilder) (v w : String),
      (b.set_path v).set_path w = { b with path := some w }) ∧
    (∀ (b : AnnotationBuilder) (v : Nat), b.set_line v = { b with line := some v }) ∧
    (∀ (b : AnnotationBuilder) (v w : Nat),
      (b.set_line v).set_line w = { b with line := some w }) ∧
    (∀ (b : AnnotationBuilder) (v : String), b.set_link v = { b with link := some v }) ∧
    (∀ (b : AnnotationBuilder) (v w : String),
      (b.set_link v).set_link w = { b with link := some w }) ∧
    (∀ (b : AnnotationBuilder) (v : String),
      b.set_external_id v = { b with external_id := some v }) ∧
    (∀ (b : AnnotationBuilder) (v w : String),
      (b.set_external_id v).set_external_id w = { b with external_id := some w }) :=
  ⟨fun _ _ => rfl, fun _ _ _ => rfl, fun _ _ => rfl, fun _ _ _ => rfl,
   fun _ _ => rfl, fun _ _ _ => rfl, fun _ _ => rfl, fun _ _ _ => rfl,
   fun _ _ => rfl, fun _ _ _ => rfl, fun _ _ => rfl, fun _ _ _ => rfl,
   fun _ _ => rfl, fun _ _ _ => rfl, fun _ _ => rfl, fun _ _ _ => rfl,
   fun _ _ => rfl, fun _ _ _ => rfl, fun _ _ => rfl, fun _ _ _ => rfl,
   fun _ _ => rfl, fun _ _ _ => rfl, fun _ _ => rfl, fun _ _ _ => rfl⟩

/-- C6: each of the seven `Parameter` variants serializes to an object with
sibling `type` and `value` keys, the type tag being the fixed uppercase
name and the value the raw scalar payload — except `LINK`, whose value is
the `linktext`/`href` object — including the two concrete examples from the
crate's tests. -/
theorem c6_parameter_tagging :
    (∀ b : Bool, encodeParameter (Parameter.Boolean b) =
      Json.obj [("type", Json.str "BOOLEAN"), ("value", Json.bool b)]) ∧
    (∀ v : Nat, encodeParameter (Parameter.Date v) =
      Json.obj [("type", Json.str "DATE"), ("value", Json.num v)]) ∧
    (∀ v : Nat, encodeParameter (Parameter.Duration v) =
      Json.obj [("type", Json.str "DURATION"), ("value", Json.num v)]) ∧
    (∀ linktext href : String, encodeParameter (Parameter.Link linktext href) =
      Json.obj [("type", Json.str "LINK"),
        ("value", Json.obj [("linktext", Json.str linktext), ("href", Json.str href)])]) ∧
    (∀ n : Int, encodeParameter (Parameter.Number n) =
      Json.obj [("type", Json.str "NUMBER"), ("value", Json.num n)]) ∧
    (∀ v : Nat, encodeParameter (Parameter.Percentage v) =
      Json.obj [("type", Json.str "PERCENTAGE"), ("value", Json.num v)]) ∧
    (∀ s : String, encodeParameter (Parameter.Text s) =
      Json.obj [("type", Json.str "TEXT"), ("value", Json.str s)]) ∧
    encodeParameter (Parameter.Boolean false) =
      Json.obj [("type", Json.str "BOOLEAN"), ("value", Json.bool false)] ∧
    encodeParameter (Parameter.Link "Link text" "https://link.test") =
      Json.obj [("type", Json.str "LINK"),
        ("value", Json.obj [("linktext", Json.str "Link text"),
          ("href", Json.str "https://link.test")])] :=
  ⟨fun _ => rfl, fun _ => rfl, fun _ => rfl, fun _ _ => rfl, fun _ => rfl,
   fun _ => rfl, fun _ => rfl, rfl, rfl⟩

/-- Lookup skips a head entry with a different key. -/
theorem lookup_cons_ne {β : Type} {k a : String} (h : (k == a) = false) (v : β)
    (l : List (String × β)) : List.lookup k ((a, v) :: l) = List.lookup k l := by
  simp [List.lookup_cons, h]

/-- Lookup finds a head entry with the same key. -/
theorem lookup_cons_eq {β : Type} (k : String) (v : β) (l : List (String × β)) :
    List.lookup k ((k, v) :: l) = some v := by
  simp [List.lookup_cons]

/-- Lookup skips a whole optional-field segment with a different key. -/
theorem lookup_optField_app_ne {α : Type} {k name : String} (h : (k == name) = false)
    (enc : α → Json) (o : Option α) (rest : List (String × Json)) :
    List.lookup k (optField name enc o ++ rest) = List.lookup k rest := by
  cases o <;> simp [optField, List.lookup_cons, h]

/-- Lookup of an optional field's own key returns its encoded payload when
the remaining segments do not hold the key. -/
theorem lookup_optField_app_eq {α : Type} (name : String) (enc : α → Json) (o : Option α)
    (rest : List (String × Json)) (h : List.lookup name rest = none) :
    List.lookup name (optField name enc o ++ rest) = o.map enc := by
  cases o <;> simp [optField, List.lookup_cons, h]

/-- Lookup misses a final optional-field segment with a different key. -/
theorem lookup_optField_ne {α : Type} {k name : String} (enc : α → Json) (o : Option α)
    (h : (k == name) = false) : List.lookup k (optField name enc o) = none := by
  cases o <;> simp [optField, List.lookup_cons, h]

/-- Lookup of a final optional-field segment's own key is its encoded
payload. -/
theorem lookup_optField_eq {α : Type} (name : String) (enc : α → Json) (o : Option α) :
    List.lookup name (optField name enc o) = o.map enc := by
  cases o <;> simp [optField, List.lookup_cons]

/-- A key that lookup cannot find is not a key of the association list. -/
theorem not_mem_keys_of_lookup_none {β : Type} {k : String} {l : List (String × β)}
    (h : List.lookup k l = none) : k ∉ l.map Prod.fst := by
  induction l with
  | nil => simp
  | cons p t ih =>
    obtain ⟨a, v⟩ := p
    rw [List.lookup_cons] at h
    cases hk : (k == a) with
    | true => rw [hk] at h; simp at h
    | false =>
      rw [hk] at h
      simp only [List.map_cons, List.mem_cons]
      rintro (rfl | hmem)
      · simp at hk
      · exact ih h hmem

/-- `title` is always the first serialized report member. -/
theorem lookup_report_title (r : Report) :
    List.lookup "title" (encodeReportObj r) = some (Json.str r.title) := by
  unfold encodeReportObj
  exact lookup_cons_eq _ _ _

/-- The serialized `details` member is exactly the encoded `details`
field. -/
theorem lookup_report_details (r : Report) :
    List.lookup "details" (encodeReportObj r) = r.details.map Json.str := by
  unfold encodeReportObj
  simp only [List.append_assoc]
  rw [lookup_cons_ne (by decide)]
  rw [lookup_optField_app_eq _ _ _ _ (by
    rw [lookup_optField_app_ne (by decide), lookup_optField_app_ne (by decide),
      lookup_optField_app_ne (by decide), lookup_optField_app_ne (by decide),
      lookup_optField_app_ne (by decide)]
    rw [lookup_optField_ne _ _ (by decide)])]

/-- The serialized `result` member is exactly the encoded `result` field. -/
theorem lookup_report_result (r : Report) :
    List.lookup "result" (encodeReportObj r) = r.result.map encodeReportResult := by
  unfold encodeReportObj
  simp only [List.append_assoc]
  rw [lookup_cons_ne (by decide), lookup_optField_app_ne (by decide)]
  rw [lookup_optField_app_eq _ _ _ _ (by
    rw [lookup_optField_app_ne (by decide), lookup_optField_app_ne (by decide),
      lookup_optField_app_ne (by decide), lookup_optField_app_ne (by decide)]
    rw [lookup_optField_ne _ _ (by decide)])]

/-- The serialized `data` member is exactly the encoded `data` array. -/
theorem lookup_report_data (r : Report) :
    List.lookup "data" (encodeReportObj r) =
      r.data.map (fun ds => Json.arr (ds.map encodeData)) := by
  unfold encodeReportObj
  simp only [List.append_assoc]
  rw [lookup_cons_ne (by decide), lookup_optField_app_ne (by decide),
    lookup_optField_app_ne (by decide)]
  rw [lookup_optField_app_eq _ _ _ _ (by
    rw [lookup_optField_app_ne (by decide), lookup_optField_app_ne (by decide),
      lookup_optField_app_ne (by decide)]
    rw [lookup_optField_ne _ _ (by decide)])]

/-- The serialized `reporter` member is exactly the encoded `reporter`
field. -/
theorem lookup_report_reporter (r : Report) :
    List.lookup "reporter" (encodeReportObj r) = r.reporter.map Json.str := by
  unfold encodeReportObj
  simp only [List.append_assoc]
  rw [lookup_cons_ne (by decide), lookup_optField_app_ne (by decide),
    lookup_optField_app_ne (by decide), lookup_optField_app_ne (by decide)]
  rw [lookup_optField_app_eq _ _ _ _ (by
    rw [lookup_optField_app_ne (by decide), lookup_optField_app_ne (by decide)]
    rw [lookup_optField_ne _ _ (by decide)])]

/-- The serialized `link` member is exactly the encoded `link` field. -/
theorem lookup_report_link (r : Report) :
    List.lookup "link" (encodeReportObj r) = r.link.map Json.str := by
  unfold encodeReportObj
  simp only [List.append_assoc]
  rw [lookup_cons_ne (by decide), lookup_optField_app_ne (by decide),
    lookup_optField_app_ne (by decide), lookup_optField_app_ne (by decide),
    lookup_optField_app_ne (by decide)]
  rw [lookup_optField_app_eq _ _ _ _ (by
    rw [lookup_optField_app_ne (by decide)]
    rw [lookup_optField_ne _ _ (by decide)])]

/-- The serialized `logoUrl` member is exactly the encoded `logo_url`
field. -/
theorem lookup_report_logoUrl (r : Report) :
    List.lookup "logoUrl" (encodeReportObj r) = r.logo_url.map Json.str := by
  unfold encodeReportObj
  simp only [List.append_assoc]
  rw [lookup_cons_ne (by decide), lookup_optField_app_ne (by decide),
    lookup_optField_app_ne (by decide), lookup_optField_app_ne (by decide),
    lookup_optField_app_ne (by decide), lookup_optField_app_ne (by decide)]
  rw [lookup_optField_app_eq _ _ _ _ (by rw [lookup_optField_ne _ _ (by decide)])]

/-- The serialized `reportType` member is exactly the encoded `report_type`
field. -/
theorem lookup_report_reportType (r : Report) :
    List.lookup "reportType" (encodeReportObj r) = r.report_type.map encodeReportType := by
  unfold encodeReportObj
  simp only [List.append_assoc]
  rw [lookup_cons_ne (by decide), lookup_optField_app_ne (by decide),
    lookup_optField_app_ne (by decide), lookup_optField_app_ne (by decide),
    lookup_optField_app_ne (by decide), lookup_optField_app_ne (by decide),
    lookup_optField_app_ne (by decide)]
  exact lookup_optField_eq _ _ _

/-- `message` is always the first serialized annotation member. -/
theorem lookup_annotation_message (a : Annotation) :
    List.lookup "message" (encodeAnnotationObj a) = some (Json.str a.message) := by
  unfold encodeAnnotationObj
  exact lookup_cons_eq _ _ _

/-- `severity` is always the second serialized annotation member. -/
theorem lookup_annotation_severity (a : Annotation) :
    List.lookup "severity" (encodeAnnotationObj a) = some (encodeSeverity a.severity) := by
  unfold encodeAnnotationObj
  rw [lookup_cons_ne (by decide)]
  exact lookup_cons_eq _ _ _

/-- The serialized `type` member is exactly the encoded `annotation_type`
field. -/
theorem lookup_annotation_type (a : Annotation) :
    List.lookup "type" (encodeAnnotationObj a) =
      a.annotation_type.map encodeAnnotationType := by
  unfold encodeAnnotationObj
  simp only [List.append_assoc]
  rw [lookup_cons_ne (by decide), lookup_cons_ne (by decide)]
  rw [lookup_optField_app_eq _ _ _ _ (by
    rw [lookup_optField_app_ne (by decide), lookup_optField_app_ne (by decide),
      lookup_optField_app_ne (by decide)]
    rw [lookup_optField_ne _ _ (by decide)])]

/-- The serialized `path` member is exactly the encoded `path` field. -/
theorem lookup_annotation_path (a : Annotation) :
    List.lookup "path" (encodeAnnotationObj a) = a.path.map Json.str := by
  unfold encodeAnnotationObj
  simp only [List.append_assoc]
  rw [lookup_cons_ne (by decide), lookup_cons_ne (by decide),
    lookup_optField_app_ne (by decide)]
  rw [lookup_optField_app_eq _ _ _ _ (by
    rw [lookup_optField_app_ne (by decide), lookup_optField_app_ne (by decide)]
    rw [lookup_optField_ne _ _ (by decide)])]

/-- The serialized `line` member is exactly the encoded `line` field. -/
theorem lookup_annotation_line (a : Annotation) :
    List.lookup "line" (encodeAnnotationObj a) =
      Option.map (fun n : Nat => Json.num (n : Int)) a.line := by
  unfold encodeAnnotationObj
  simp only [List.append_assoc]
  rw [lookup_cons_ne (by decide), lookup_cons_ne (by decide),
    lookup_optField_app_ne (by decide), lookup_optField_app_ne (by decide)]
  rw [lookup_optField_app_eq _ _ _ _ (by
    rw [lookup_optField_app_ne (by decide)]
    rw [lookup_optField_ne _ _ (by decide)])]

/-- The serialized annotation `link` member is exactly the encoded `link`
field. -/
theorem lookup_annotation_link (a : Annotation) :
    List.lookup "link" (encodeAnnotationObj a) = a.link.map Json.str := by
  unfold encodeAnnotationObj
  simp only [List.append_assoc]
  rw [lookup_cons_ne (by decide), lookup_cons_ne (by decide),
    lookup_optField_app_ne (by decide), lookup_optField_app_ne (by decide),
    lookup_optField_app_ne (by decide)]
  rw [lookup_optField_app_eq _ _ _ _ (by rw [lookup_optField_ne _ _ (by decide)])]

/-- The serialized `externalId` member is exactly the encoded `external_id`
field. -/
theorem lookup_annotation_externalId (a : Annotation) :
    List.lookup "externalId" (encodeAnnotationObj a) = a.external_id.map Json.str := by
  unfold encodeAnnotationObj
  simp only [List.append_assoc]
  rw [lookup_cons_ne (by decide), lookup_cons_ne (by decide),
    lookup_optField_app_ne (by decide), lookup_optField_app_ne (by decide),
    lookup_optField_app_ne (by decide), lookup_optField_app_ne (by decide)]
  exact lookup_optField_eq _ _ _

/-- C5: each absent optional field of a report or annotation is omitted
entirely from the serialized object — its key does not appear at all, so in
particular it is never emitted as a JSON null — and a value built with only
its required fields serializes to an object with only the required keys:
`ReportBuilder::new("Title").result(Pass).build()` succeeds and serializes
to exactly the two-member document. -/
theorem c5_optional_omission :
    (∀ r : Report,
      (r.details = none → "details" ∉ (encodeReportObj r).map Prod.fst) ∧
      (r.result = none → "result" ∉ (encodeReportObj r).map Prod.fst) ∧
      (r.data = none → "data" ∉ (encodeReportObj r).map Prod.fst) ∧
      (r.reporter = none → "reporter" ∉ (encodeReportObj r).map Prod.fst) ∧
      (r.link = none → "link" ∉ (encodeReportObj r).map Prod.fst) ∧
      (r.logo_url = none → "logoUrl" ∉ (encodeReportObj r).map Prod.fst) ∧
      (r.report_type = none → "reportType" ∉ (encodeReportObj r).map Prod.fst)) ∧
    (∀ a : Annotation,
      (a.annotation_type = none → "type" ∉ (encodeAnnotationObj a).map Prod.fst) ∧
      (a.path = none → "path" ∉ (encodeAnnotationObj a).map Prod.fst) ∧
      (a.line = none → "line" ∉ (encodeAnnotationObj a).map Prod.fst) ∧
      (a.link = none → "link" ∉ (encodeAnnotationObj a).map Prod.fst) ∧
      (a.external_id = none → "externalId" ∉ (encodeAnnotationObj a).map Prod.fst)) ∧
    ((ReportBuilder.new "Title").set_result ReportResult.Pass).build =
      Except.ok
        { title := "Title", details := none, result := some ReportResult.Pass,
          data := none, reporter := none, link := none, logo_url := none,
          report_type := none } ∧
    encodeReport
        { title := "Title", details := none, result := some ReportResult.Pass,
          data := none, reporter := none, link := none, logo_url := none,
          report_type := none } =
      Json.obj [("title", Json.str "Title"), ("result", Json.str "PASS")] ∧
    Report.try_into_string
        { title := "Title", details := none, result := some ReportResult.Pass,
          data := none, reporter := none, link := none, logo_url := none,
          report_type := none } =
      Except.ok "\x7b\"title\":\"Title\",\"result\":\"PASS\"\x7d" ∧
    encodeReport
        { title := "Title", details := none, result := none, data := none,
          reporter := none, link := none, logo_url := none, report_type := none } =
      Json.obj [("title", Json.str "Title")] ∧
    encodeAnnotationValue
        { message := "Message", severity := Severity.Low, annotation_type := none,
          path := none, line := none, link := none, external_id := none } =
      Json.obj [("message", Json.str "Message"), ("severity", Json.str "LOW")] := by
  refine ⟨?_, ?_, ?_, rfl, ?_, rfl, rfl⟩
  · intro r
    refine ⟨?_, ?_, ?_, ?_, ?_, ?_, ?_⟩ <;> intro h <;>
      apply not_mem_keys_of_lookup_none
    · rw [lookup_report_details, h]; rfl
    · rw [lookup_report_result, h]; rfl
    · rw [lookup_report_data, h]; rfl
    · rw [lookup_report_reporter, h]; rfl
    · rw [lookup_report_link, h]; rfl
    · rw [lookup_report_logoUrl, h]; rfl
    · rw [lookup_report_reportType, h]; rfl
  · intro a
    refine ⟨?_, ?_, ?_, ?_, ?_⟩ <;> intro h <;>
      apply not_mem_keys_of_lookup_none
    · rw [lookup_annotation_type, h]; rfl
    · rw [lookup_annotation_path, h]; rfl
    · rw [lookup_annotation_line, h]; rfl
    · rw [lookup_annotation_link, h]; rfl
    · rw [lookup_annotation_externalId, h]; rfl
  · rfl
  · rfl

/-- Witness for C5 at concrete values: the report and annotation holding
only required fields omit every optional key. -/
theorem c5_optional_omission_witness :
    ("details" ∉
      (encodeReportObj
        { title := "Title", details := none, result := none, data := none,
          reporter := none, link := none, logo_url := none,
          report_type := none }).map Prod.fst) ∧
    ("result" ∉
      (encodeReportObj
        { title := "Title", details := none, result := none, data := none,
          reporter := none, link := none, logo_url := none,
          report_type := none }).map Prod.fst) ∧
    ("data" ∉
      (encodeReportObj
        { title := "Title", details := none, result := none, data := none,
          reporter := none, link := none, logo_url := none,
          report_type := none }).map Prod.fst) ∧
    ("reporter" ∉
      (encodeReportObj
        { title := "Title", details := none, result := none, data := none,
          reporter := none, link := none, logo_url := none,
          report_type := none }).map Prod.fst) ∧
    ("link" ∉
      (encodeReportObj
        { title := "Title", details := none, result := none, data := none,
          reporter := none, link := none, logo_url := none,
          report_type := none }).map Prod.fst) ∧
    ("logoUrl" ∉
      (encodeReportObj
        { title := "Title", details := none, result := none, data := none,
          reporter := none, link := none, logo_url := none,
          report_type := none }).map Prod.fst) ∧
    ("reportType" ∉
      (encodeReportObj
        { title := "Title", details := none, result := none, data := none,
          reporter := none, link := none, logo_url := none,
          report_type := none }).map Prod.fst) ∧
    ("type" ∉
      (encodeAnnotationObj
        { message := "Message", severity := Severity.Low, annotation_type := none,
          path := none, line := none, link := none,
          external_id := none }).map Prod.fst) ∧
    ("path" ∉
      (encodeAnnotationObj
        { message := "Message", severity := Severity.Low, annotation_type := none,
          path := none, line := none, link := none,
          external_id := none }).map Prod.fst) ∧
    ("line" ∉
      (encodeAnnotationObj
        { message := "Message", severity := Severity.Low, annotation_type := none,
          path := none, line := none, link := none,
          external_id := none }).map Prod.fst) ∧
    ("link" ∉
      (encodeAnnotationObj
        { message := "Message", severity := Severity.Low, annotation_type := none,
          path := none, line := none, link := none,
          external_id := none }).map Prod.fst) ∧
    ("externalId" ∉
      (encodeAnnotationObj
        { message := "Message", severity := Severity.Low, annotation_type := none,
          path := none, line := none, link := none,
          external_id := none }).map Prod.fst) := by
  refine ⟨?_, ?_, ?_, ?_, ?_, ?_, ?_, ?_, ?_, ?_, ?_, ?_⟩
  · exact (c5_optional_omission.1 _).1 rfl
  · exact (c5_optional_omission.1 _).2.1 rfl
  · exact (c5_optional_omission.1 _).2.2.1 rfl
  · exact (c5_optional_omission.1 _).2.2.2.1 rfl
  · exact (c5_optional_omission.1 _).2.2.2.2.1 rfl
  · exact (c5_optional_omission.1 _).2.2.2.2.2.1 rfl
  · exact (c5_optional_omission.1 _).2.2.2.2.2.2 rfl
  · exact (c5_optional_omission.2.1 _).1 rfl
  · exact (c5_optional_omission.2.1 _).2.1 rfl
  · exact (c5_optional_omission.2.1 _).2.2.1 rfl
  · exact (c5_optional_omission.2.1 _).2.2.2.1 rfl
  · exact (c5_optional_omission.2.1 _).2.2.2.2 rfl

/-- C8 counterexample: a report whose only data field is `Percentage(150)` —
a legal `u8` payload above 100 — passes build and serialization untouched,
so a validated report's percentage payloads need not lie in 0..100. -/
theorem c8_percentage_counterexample :
    ((ReportBuilder.new "Title").set_data
        [{ title := "Coverage", parameter := Parameter.Percentage 150 }]).build =
      Except.ok
        { title := "Title", details := none, result := none,
          data := some [{ title := "Coverage", parameter := Parameter.Percentage 150 }],
          reporter := none, link := none, logo_url := none, report_type := none } ∧
    Report.try_into_value
        { title := "Title", details := none, result := none,
          data := some [{ title := "Coverage", parameter := Parameter.Percentage 150 }],
          reporter := none, link := none, logo_url := none, report_type := none } =
      Except.ok
        (Json.obj
          [("title", Json.str "Title"),
           ("data", Json.arr
             [Json.obj [("title", Json.str "Coverage"),
               ("type", Json.str "PERCENTAGE"), ("value", Json.num 150)]])]) ∧
    ¬(150 ≤ 100) :=
  ⟨rfl, rfl, by decide⟩

/-- C8 amended: the `Percentage` payload is a `u8`, and neither build nor
serialization constrains its numeric value — every payload in the `u8` range
0..255, in particular values above 100, passes validation. -/
theorem c8_percentage_unchecked (v : Nat) (_hv : v ≤ 255) :
    ((ReportBuilder.new "Title").set_data
        [{ title := "Coverage", parameter := Parameter.Percentage v }]).build =
      Except.ok
        { title := "Title", details := none, result := none,
          data := some [{ title := "Coverage", parameter := Parameter.Percentage v }],
          reporter := none, link := none, logo_url := none, report_type := none } ∧
    Report.validate_fields
        { title := "Title", details := none, result := none,
          data := some [{ title := "Coverage", parameter := Parameter.Percentage v }],
          reporter := none, link := none, logo_url := none, report_type := none } =
      Except.ok () := by
  constructor
  · exact reportBuilder_build_ok
      (reportBuilder_validate_ok (by show strLen "Title" ≤ TITLE_LIMIT; decide)
        (by intro d hd; cases hd) (by intro s hs; cases hs)
        (by intro ds hds; cases hds; simp [DATA_LIMIT]))
  · rw [report_validate_eq_builder]
    exact reportBuilder_validate_ok (by show strLen "Title" ≤ TITLE_LIMIT; decide)
      (by intro d hd; cases hd) (by intro s hs; cases hs)
      (by intro ds hds; cases hds; simp [DATA_LIMIT])

/-- Witness for C8's amended claim at the payload 150. -/
theorem c8_percentage_unchecked_witness :
    (150 ≤ 255) ∧
    ((ReportBuilder.new "Title").set_data
        [{ title := "Coverage", parameter := Parameter.Percentage 150 }]).build =
      Except.ok
        { title := "Title", details := none, result := none,
          data := some [{ title := "Coverage", parameter := Parameter.Percentage 150 }],
          reporter := none, link := none, logo_url := none, report_type := none } :=
  ⟨by decide, (c8_percentage_unchecked 150 (by decide)).1⟩

/-- C4: the measured length validation uses is the UTF-8 byte count
(`String::len`), not the character count the crate's documentation and the
specification promise. A title of 450 copies of a two-byte character has
character count 450 — within the documented 450-character limit — yet build
rejects it, reporting a measured length of 900. -/
theorem c4_length_is_bytes_not_chars :
    (repChar 'é' 450).length = 450 ∧
    strLen (repChar 'é' 450) = 900 ∧
    (ReportBuilder.new (repChar 'é' 450)).build =
      Except.error (Error.FieldTooLong "title" 900 450) ∧
    validate_field "title" (strLen (repChar 'é' 450)) TITLE_LIMIT =
      Except.error (Error.FieldTooLong "title" 900 450) := by
  have h0 : strLen (repChar 'é' 450) = 900 := by rw [repChar_utf8]; decide
  refine ⟨by rw [repChar_length], h0, ?_, by rw [h0]; rfl⟩
  have hv := ReportBuilder.validate_title_err
    (b := ReportBuilder.new (repChar 'é' 450))
    (by show TITLE_LIMIT < strLen (repChar 'é' 450); rw [h0]; decide)
  simp only [ReportBuilder.new] at hv
  rw [h0] at hv
  exact reportBuilder_build_err hv

/-- Decoding inverts encoding on `ReportResult`. -/
theorem decodeReportResult_inv (x : ReportResult) :
    decodeReportResult (encodeReportResult x) = some x := by
  cases x <;> rfl

/-- Decoding inverts encoding on `ReportType`. -/
theorem decodeReportType_inv (x : ReportType) :
    decodeReportType (encodeReportType x) = some x := by
  cases x <;> rfl

/-- Decoding inverts encoding on `Severity`. -/
theorem decodeSeverity_inv (x : Severity) :
    decodeSeverity (encodeSeverity x) = some x := by
  cases x <;> rfl

/-- Decoding inverts encoding on annotation.rs's `Type`. -/
theorem decodeAnnotationType_inv (x : AnnotationType) :
    decodeAnnotationType (encodeAnnotationType x) = some x := by
  cases x <;> rfl

/-- Decoding inverts encoding on a range-respecting `Data` field. -/
theorem decodeData_encodeData (d : Data) (h : d.rangesOk = true) :
    decodeData (encodeData d) = some d := by
  obtain ⟨t, p⟩ := d
  simp only [Data.rangesOk] at h
  cases p with
  | Boolean b =>
    simp [decodeData, encodeData, encodeParameterFields, decodeParameterFields, asStr,
      List.lookup_cons]
  | Date v =>
    simp only [Parameter.rangesOk, decide_eq_true_eq] at h
    simp [decodeData, encodeData, encodeParameterFields, decodeParameterFields, asStr,
      decodeU, List.lookup_cons]
    rw [if_pos (by simpa using h)]
    simp
  | Duration v =>
    simp only [Parameter.rangesOk, decide_eq_true_eq] at h
    simp [decodeData, encodeData, encodeParameterFields, decodeParameterFields, asStr,
      decodeU, List.lookup_cons]
    rw [if_pos (by simpa using h)]
    simp
  | Link lt href =>
    simp [decodeData, encodeData, encodeParameterFields, decodeParameterFields, asStr,
      List.lookup_cons]
  | Number n =>
    simp [decodeData, encodeData, encodeParameterFields, decodeParameterFields, asStr,
      List.lookup_cons]
  | Percentage v =>
    simp only [Parameter.rangesOk, decide_eq_true_eq] at h
    simp [decodeData, encodeData, encodeParameterFields, decodeParameterFields, asStr,
      decodeU, List.lookup_cons]
    rw [if_pos (by simpa using h)]
    simp
  | Text s =>
    simp [decodeData, encodeData, encodeParameterFields, decodeParameterFields, asStr,
      List.lookup_cons]

/-- Decoding inverts encoding elementwise on a range-respecting data
array. -/
theorem mapM_decodeData (ds : List Data) (h : ∀ d ∈ ds, d.rangesOk = true) :
    (ds.map encodeData).mapM decodeData = some ds := by
  induction ds with
  | nil => rfl
  | cons d t ih =>
    simp only [List.map_cons, List.mapM_cons]
    rw [decodeData_encodeData d (h d (by simp))]
    rw [ih (fun x hx => h x (by simp [hx]))]
    rfl

/-- An optional field whose serialized member is its encoded payload decodes
back to the payload whenever the decoder inverts the encoder. -/
theorem decodeOptField_of_lookup {α : Type} {fs : List (String × Json)} {k : String}
    {dec : Json → Option α} {enc : α → Json} {o : Option α}
    (hl : List.lookup k fs = o.map enc) (hinv : ∀ x ∈ o, dec (enc x) = some x) :
    decodeOptField fs k dec = some o := by
  cases o with
  | none => simp [decodeOptField, hl]
  | some x => simp [decodeOptField, hl, hinv x rfl]

/-- Decoding inverts encoding on a range-respecting `Report`. -/
theorem decodeReport_encodeReport (r : Report) (h : r.rangesOk = true) :
    decodeReport (encodeReport r) = some r := by
  have hdet : decodeOptField (encodeReportObj r) "details" asStr = some r.details :=
    decodeOptField_of_lookup (lookup_report_details r) (fun x _ => rfl)
  have hres : decodeOptField (encodeReportObj r) "result" decodeReportResult =
      some r.result :=
    decodeOptField_of_lookup (lookup_report_result r)
      (fun x _ => decodeReportResult_inv x)
  have hdata : decodeOptField (encodeReportObj r) "data" decodeDataArr = some r.data :=
    decodeOptField_of_lookup (lookup_report_data r) (fun ds hds => by
    have hall : ∀ d ∈ ds, d.rangesOk = true := by
      rw [Report.rangesOk] at h
      rw [hds] at h
      simpa [List.all_eq_true] using h
    simpa [decodeDataArr] using mapM_decodeData ds hall)
  have hrep : decodeOptField (encodeReportObj r) "reporter" asStr = some r.reporter :=
    decodeOptField_of_lookup (lookup_report_reporter r) (fun x _ => rfl)
  have hlink : decodeOptField (encodeReportObj r) "link" asStr = some r.link :=
    decodeOptField_of_lookup (lookup_report_link r) (fun x _ => rfl)
  have hlogo : decodeOptField (encodeReportObj r) "logoUrl" asStr = some r.logo_url :=
    decodeOptField_of_lookup (lookup_report_logoUrl r) (fun x _ => rfl)
  have hrt : decodeOptField (encodeReportObj r) "reportType" decodeReportType =
      some r.report_type :=
    decodeOptField_of_lookup (lookup_report_reportType r)
      (fun x _ => decodeReportType_inv x)
  simp [decodeReport, encodeReport, lookup_report_title r, asStr, hdet, hres, hdata,
    hrep, hlink, hlogo, hrt]

/-- Decoding inverts encoding on a range-respecting `Annotation`. -/
theorem decodeAnnotationVal_inv (a : Annotation) (h : a.rangesOk = true) :
    decodeAnnotationVal (encodeAnnotationValue a) = some a := by
  have hat : decodeOptField (encodeAnnotationObj a) "type" decodeAnnotationType =
      some a.annotation_type :=
    decodeOptField_of_lookup (lookup_annotation_type a)
      (fun x _ => decodeAnnotationType_inv x)
  have hpath : decodeOptField (encodeAnnotationObj a) "path" asStr = some a.path :=
    decodeOptField_of_lookup (lookup_annotation_path a) (fun x _ => rfl)
  have hline : decodeOptField (encodeAnnotationObj a) "line" (decodeU (2 ^ 32)) =
      some a.line :=
    decodeOptField_of_lookup (lookup_annotation_line a) (fun n hn => by
    have hr : n < 2 ^ 32 := by
      rw [ Annotation.rangesOk] at h
      rw [hn] at h
      simpa using h
    show decodeU (2 ^ 32) (Json.num n) = some n
    simp [decodeU]
    simpa using hr)
  have hlink : decodeOptField (encodeAnnotationObj a) "link" asStr = some a.link :=
    decodeOptField_of_lookup (lookup_annotation_link a) (fun x _ => rfl)
  have hxid : decodeOptField (encodeAnnotationObj a) "externalId" asStr =
      some a.external_id :=
    decodeOptField_of_lookup (lookup_annotation_externalId a) (fun x _ => rfl)
  have hline2 : decodeOptField (encodeAnnotationObj a) "line" (decodeU 4294967296) =
      some a.line := hline
  simp [decodeAnnotationVal, encodeAnnotationValue, lookup_annotation_message a,
    lookup_annotation_severity a, asStr, decodeSeverity_inv, hat, hpath, hline2,
    hlink, hxid]

/-- C7: for every report or annotation that serializes successfully (within
the numeric ranges its Rust field types guarantee), decoding the produced
JSON value yields the original in-memory value, and re-serializing that
value reproduces the same JSON document. -/
theorem c7_roundtrip :
    (∀ (r : Report) (j : Json), r.rangesOk = true →
      Report.try_into_value r = Except.ok j →
      decodeReport j = some r ∧ encodeReport r = j) ∧
    (∀ (a : Annotation) (j : Json), a.rangesOk = true →
      Annotation.try_into_value a = Except.ok j →
      decodeAnnotationVal j = some a ∧ encodeAnnotationValue a = j) := by
  constructor
  · intro r j hwf hok
    have hj : encodeReport r = j := by
      unfold Report.try_into_value at hok
      cases hv : r.validate_fields with
      | error e => rw [hv, exbind_error] at hok; simp at hok
      | ok u =>
        cases u
        rw [hv, exbind_ok, expure_ok] at hok
        injection hok
    rw [← hj]
    exact ⟨decodeReport_encodeReport r hwf, rfl⟩
  · intro a j hwf hok
    have hj : encodeAnnotationValue a = j := by
      unfold Annotation.try_into_value at hok
      cases hv : a.validate_fields with
      | error e => rw [hv, exbind_error] at hok; simp at hok
      | ok u =>
        cases u
        rw [hv, exbind_ok, expure_ok] at hok
        injection hok
    rw [← hj]
    exact ⟨decodeAnnotationVal_inv a hwf, rfl⟩

/-- Witness for C7: a fully-populated report exercising all seven parameter
variants, and a fully-populated annotation, decode back to themselves from
their serialized values. -/
theorem c7_roundtrip_witness :
    decodeReport
        (encodeReport
          { title := "Title", details := some "Details", result := some ReportResult.Fail,
            data := some
              [{ title := "b", parameter := Parameter.Boolean true },
               { title := "d", parameter := Parameter.Date 1582841968 },
               { title := "u", parameter := Parameter.Duration 3600 },
               { title := "l",
                 parameter := Parameter.Link "Link text" "https://link.test" },
               { title := "n", parameter := Parameter.Number (-12) },
               { title := "p", parameter := Parameter.Percentage 50 }],
            reporter := some "Reporter", link := some "https://r.test",
            logo_url := some "https://logo.test",
            report_type := some ReportType.Coverage }) =
      some
        { title := "Title", details := some "Details", result := some ReportResult.Fail,
          data := some
            [{ title := "b", parameter := Parameter.Boolean true },
             { title := "d", parameter := Parameter.Date 1582841968 },
             { title := "u", parameter := Parameter.Duration 3600 },
             { title := "l",
               parameter := Parameter.Link "Link text" "https://link.test" },
             { title := "n", parameter := Parameter.Number (-12) },
             { title := "p", parameter := Parameter.Percentage 50 }],
          reporter := some "Reporter", link := some "https://r.test",
          logo_url := some "https://logo.test",
          report_type := some ReportType.Coverage } ∧
    decodeAnnotationVal
        (encodeAnnotationValue
          { message := "Message", severity := Severity.Medium,
            annotation_type := some AnnotationType.CodeSmell, path := some "src/lib.rs",
            line := some 14, link := some "https://a.test",
            external_id := some "id-1" }) =
      some
        { message := "Message", severity := Severity.Medium,
          annotation_type := some AnnotationType.CodeSmell, path := some "src/lib.rs",
          line := some 14, link := some "https://a.test", external_id := some "id-1" } := by
  constructor
  · exact (c7_roundtrip.1 _ _ (by decide) (by rfl)).1
  · exact (c7_roundtrip.2 _ _ (by decide) (by rfl)).1

end CodeInsights
